import Mathlib

/-!
Shallow embedding of the ayyboy Game Boy emulator core (Rust) and proofs
about it.  Machine integers are modelled as natural numbers; `u8`/`u16`
casts and wrapping arithmetic are made explicit with `% 256` / `% 65536`
or bit masks.  Fallible Rust functions returning `Result` are embedded as
`Except`.  Byte stores (`Vec<u8>`) are modelled as total functions from
addresses to byte values.
-/

namespace Ayy

/-- Pointwise update of a byte store at one address. -/
def upd (m : Nat → Nat) (a d : Nat) : Nat → Nat :=
  fun b => if b = a then d else m b

/-- Rust bitwise complement on a `u8` value. -/
def not8 (x : Nat) : Nat := (x % 256) ^^^ 0xff

/-- Wrapping subtraction on `u16` (Rust release-mode `-` / `wrapping_sub`). -/
def wsub16 (x y : Nat) : Nat := (x + 0x10000 - y % 0x10000) % 0x10000

/-- Wrapping addition on `u16`. -/
def wadd16 (x y : Nat) : Nat := (x + y) % 0x10000

/-- Error type from src/src/error.rs (the variants exercised by the core
memory path; the decoder-side variants are not needed here). -/
inductive AyyError where
  | writeToReadOnlyMemory (address data : Nat)
  | writeToDisabledExternalRam (address data : Nat)
  | outOfBoundsMemoryAccess (address : Nat)
  | invalidHandler
  | unknownConditionBits (data : Nat)
  | unknownIrqVector (vector : Nat)
  deriving DecidableEq, Repr

/-! ## Joypad (src/src/joypad.rs) -/

structure Joypad where
  up : Bool
  down : Bool
  left : Bool
  right : Bool
  a : Bool
  b : Bool
  start : Bool
  select : Bool
  deriving DecidableEq, Repr

def Joypad.new : Joypad :=
  { up := false, down := false, left := false, right := false,
    a := false, b := false, start := false, select := false }

/-- Joypad read-back, from Joypad::as_u8.  `joypad_state` is the byte last
written to 0xFF00.  Note the source ORs pressed-button bits into `state`
and returns the bitwise complement of the whole byte, and the direction
row is only consulted in the `else if` branch. -/
def Joypad.as_u8 (j : Joypad) (joypad_state : Nat) : Nat :=
  let button_select := joypad_state &&& 0b00100000 == 0
  let direction_select := joypad_state &&& 0b00010000 == 0
  let state := joypad_state &&& 0b11110000
  let state :=
    if button_select then
      let state := if j.start then state ||| 0b00001000 else state
      let state := if j.select then state ||| 0b00000100 else state
      let state := if j.b then state ||| 0b00000010 else state
      if j.a then state ||| 0b00000001 else state
    else if direction_select then
      let state := if j.down then state ||| 0b00001000 else state
      let state := if j.up then state ||| 0b00000100 else state
      let state := if j.left then state ||| 0b00000010 else state
      if j.right then state ||| 0b00000001 else state
    else
      state
  not8 state

/-! ## CGB colour palette RAM (src/src/video/cram.rs) -/

def BACKGROUND_PALETTE_INDEX_REGISTER : Nat := 0xff68
def BACKGROUND_PALETTE_DATA_REGISTER : Nat := 0xff69
def OBJECT_PALETTE_INDEX_REGISTER : Nat := 0xff6a
def OBJECT_PALETTE_DATA_REGISTER : Nat := 0xff6b

/-- Colour RAM state.  The two 64-byte palette arrays are modelled as
functions; note the source keeps a single shared `auto_increment` flag
next to the two separate address registers. -/
structure Cram where
  background_palette : Nat → Nat
  object_palette : Nat → Nat
  auto_increment : Bool
  obj_address : Nat
  bg_address : Nat

def Cram.new : Cram :=
  { background_palette := fun _ => 0
    object_palette := fun _ => 0
    auto_increment := false
    obj_address := 0
    bg_address := 0 }

/-- Cram read, from the Addressable impl in cram.rs. -/
def Cram.read (c : Cram) (addr : Nat) : Nat :=
  if addr = BACKGROUND_PALETTE_INDEX_REGISTER then
    ((if c.auto_increment then 1 else 0) <<< 7) ||| (c.bg_address &&& 0b00111111)
  else if addr = OBJECT_PALETTE_INDEX_REGISTER then
    ((if c.auto_increment then 1 else 0) <<< 7) ||| (c.obj_address &&& 0b00111111)
  else if addr = BACKGROUND_PALETTE_DATA_REGISTER then
    c.background_palette c.bg_address
  else if addr = OBJECT_PALETTE_DATA_REGISTER then
    c.object_palette c.obj_address
  else
    0xff

/-- Cram write, from the Addressable impl in cram.rs. -/
def Cram.write (c : Cram) (addr data : Nat) : Cram :=
  if addr = BACKGROUND_PALETTE_INDEX_REGISTER then
    { c with auto_increment := data &&& 0b10000000 != 0
             bg_address := data &&& 0b00111111 }
  else if addr = OBJECT_PALETTE_INDEX_REGISTER then
    { c with auto_increment := data &&& 0b10000000 != 0
             obj_address := data &&& 0b00111111 }
  else if addr = BACKGROUND_PALETTE_DATA_REGISTER then
    { c with background_palette := upd c.background_palette c.bg_address data
             bg_address := if c.auto_increment
               then ((c.bg_address + 1) % 256) &&& 0b00111111 else c.bg_address }
  else if addr = OBJECT_PALETTE_DATA_REGISTER then
    { c with object_palette := upd c.object_palette c.obj_address data
             obj_address := if c.auto_increment
               then ((c.obj_address + 1) % 256) &&& 0b00111111 else c.obj_address }
  else
    c

/-! ## Cartridge mappers (src/src/memory/mapper/) -/

def EXTERNAL_RAM_START : Nat := 0xa000
def EXTERNAL_RAM_END : Nat := 0xbfff
def ROM_START : Nat := 0x0000
def ROM_END : Nat := 0x7fff

/-- Flat ROM mapper state (rom.rs). -/
structure Rom where
  memory : Nat → Nat

/-- MBC1 mapper state (mbc1.rs).  The `secondary_banking_allowed` flag is
fixed at construction from the ROM size (> 0x80000 bytes). -/
structure Mbc1 where
  rom : Nat → Nat
  rom_bank : Nat
  ram : Nat → Nat
  ram_bank : Nat
  ram_enabled : Bool
  banking_mode : Bool
  secondary_banking_allowed : Bool

/-- MBC5 mapper state (mbc5.rs).  The optional rumble peripheral is an
out-of-core collaborator with no effect on the memory state. -/
structure Mbc5 where
  rom : Nat → Nat
  ram : Nat → Nat
  rom_bank : Nat
  ram_bank : Nat
  ram_enabled : Bool
  allow_rumble : Bool

/-- Mbc1 read, from the Mapper impl in mbc1.rs. -/
def Mbc1.read (m : Mbc1) (addr : Nat) : Except AyyError Nat :=
  if 0x0000 ≤ addr ∧ addr ≤ 0x3fff then
    .ok (m.rom addr)
  else if 0x4000 ≤ addr ∧ addr ≤ 0x7fff then
    .ok (m.rom (addr % 0x4000 + m.rom_bank * 0x4000))
  else if EXTERNAL_RAM_START ≤ addr ∧ addr ≤ EXTERNAL_RAM_END then
    if m.ram_enabled then
      .ok (m.ram (addr - EXTERNAL_RAM_START + m.ram_bank * 0x2000))
    else
      .error (.outOfBoundsMemoryAccess addr)
  else
    .error (.outOfBoundsMemoryAccess addr)

/-- Mbc1 write, from the Mapper impl in mbc1.rs.  Returns the new mapper
state on success. -/
def Mbc1.write (m : Mbc1) (addr data : Nat) : Except AyyError Mbc1 :=
  if addr ≤ 0x1fff then
    .ok { m with ram_enabled := data &&& 0x0f == 0x0a }
  else if 0x2000 ≤ addr ∧ addr ≤ 0x3fff then
    let rom_bank := data &&& 0b00011111
    .ok { m with rom_bank := if rom_bank = 0 then 1 else rom_bank }
  else if (0x4000 ≤ addr ∧ addr ≤ 0x5fff) ∧ ¬m.banking_mode then
    if m.secondary_banking_allowed then
      .ok { m with ram_bank := data &&& 0b11 }
    else
      .ok m
  else if (0x4000 ≤ addr ∧ addr ≤ 0x5fff) ∧ m.banking_mode then
    if m.secondary_banking_allowed then
      .ok { m with rom_bank := (m.rom_bank &&& 0b00011111) ||| ((data &&& 0b11) <<< 5) }
    else
      .ok m
  else if 0x6000 ≤ addr ∧ addr ≤ 0x7fff then
    .ok { m with banking_mode := data &&& 0b00000001 == 1 }
  else if EXTERNAL_RAM_START ≤ addr ∧ addr ≤ EXTERNAL_RAM_END then
    if m.ram_enabled then
      .ok { m with ram := upd m.ram (addr - EXTERNAL_RAM_START + m.ram_bank * 0x2000) data }
    else
      .error (.writeToDisabledExternalRam addr data)
  else
    .error (.writeToReadOnlyMemory addr data)

/-- Mbc5 read, from the Mapper impl in mbc5.rs.  Reads from disabled RAM
and unmapped addresses log an error and return a fixed byte. -/
def Mbc5.read (m : Mbc5) (addr : Nat) : Except AyyError Nat :=
  if addr ≤ 0x3fff then
    .ok (m.rom addr)
  else if 0x4000 ≤ addr ∧ addr ≤ 0x7fff then
    .ok (m.rom (addr % 0x4000 + m.rom_bank * 0x4000))
  else if (0xa000 ≤ addr ∧ addr ≤ 0xbfff) ∧ m.ram_enabled then
    .ok (m.ram (addr - 0xa000 + m.ram_bank * 0x2000))
  else if (0xa000 ≤ addr ∧ addr ≤ 0xbfff) ∧ ¬m.ram_enabled then
    .ok 0
  else
    .ok 0

/-- Mbc5 write, from the Mapper impl in mbc5.rs.  Note the disabled-RAM
and unmapped arms log an error and return Ok with the state unchanged. -/
def Mbc5.write (m : Mbc5) (addr data : Nat) : Except AyyError Mbc5 :=
  if addr ≤ 0x1fff then
    .ok { m with ram_enabled := data &&& 0x0f == 0x0a }
  else if 0x2000 ≤ addr ∧ addr ≤ 0x2fff then
    .ok { m with rom_bank := (m.rom_bank &&& 0x100) ||| (data % 256) }
  else if 0x3000 ≤ addr ∧ addr ≤ 0x3fff then
    .ok { m with rom_bank := (m.rom_bank &&& 0xff) ||| ((data &&& 0x1) <<< 8) }
  else if 0x4000 ≤ addr ∧ addr ≤ 0x5fff then
    .ok { m with ram_bank := data &&& 0x0f }
  else if (0xa000 ≤ addr ∧ addr ≤ 0xbfff) ∧ m.ram_enabled then
    .ok { m with ram := upd m.ram (addr - 0xa000 + m.ram_bank * 0x2000) data }
  else if (0xa000 ≤ addr ∧ addr ≤ 0xbfff) ∧ ¬m.ram_enabled then
    .ok m
  else
    .ok m

/-- Dynamic mapper dispatch (Box of dyn Mapper in the source). -/
inductive Mapper where
  | rom (st : Rom)
  | mbc1 (st : Mbc1)
  | mbc5 (st : Mbc5)

/-- Mapper read dispatch.  The flat ROM mapper returns the backing byte. -/
def Mapper.read (m : Mapper) (addr : Nat) : Except AyyError Nat :=
  match m with
  | .rom st => .ok (st.memory addr)
  | .mbc1 st => st.read addr
  | .mbc5 st => st.read addr

/-- Mapper write dispatch.  The flat ROM mapper rejects every write. -/
def Mapper.write (m : Mapper) (addr data : Nat) : Except AyyError Mapper :=
  match m with
  | .rom _ => .error (.writeToReadOnlyMemory addr data)
  | .mbc1 st => (st.write addr data).map .mbc1
  | .mbc5 st => (st.write addr data).map .mbc5

/-! ## MMU (src/src/memory/mmu.rs) -/

def INTERRUPT_ENABLE_REGISTER : Nat := 0xffff
def INTERRUPT_FLAGS_REGISTER : Nat := 0xff0f
def BOOTROM_MAPPER_REGISTER : Nat := 0xff50
def OAM_DMA_REGISTER : Nat := 0xff46
def JOYPAD_REGISTER : Nat := 0xff00
def DIV_REGISTER : Nat := 0xff04
def TIMA_REGISTER : Nat := 0xff05
def TMA_REGISTER : Nat := 0xff06
def TAC_REGISTER : Nat := 0xff07
def VRAM_BANK_SELECT_REGISTER : Nat := 0xff4f
def WRAM_BANK_SELECT_REGISTER : Nat := 0xff70
def VRAM_START : Nat := 0x8000
def VRAM_END : Nat := 0x9fff
def WRAM_BANK1_START : Nat := 0xd000
def WRAM_BANK1_END : Nat := 0xdfff
def LCD_STATUS_REGISTER : Nat := 0xff41
def DOUBLE_SPEED_SWITCH_REGISTER : Nat := 0xff4d
def HDMA_VRAM_SRC_HIGH_REGISTER : Nat := 0xff51
def HDMA_VRAM_SRC_LOW_REGISTER : Nat := 0xff52
def HDMA_VRAM_DST_HIGH_REGISTER : Nat := 0xff53
def HDMA_VRAM_DST_LOW_REGISTER : Nat := 0xff54
def HDMA_LENGTH_MODE_START_REGISTER : Nat := 0xff55

/-- Hardware variant (Mode in src/src/gameboy.rs). -/
inductive Mode where
  | dmg
  | cgb
  deriving DecidableEq, Repr

/-- PPU phase (State in src/src/video/state.rs). -/
inductive PpuState where
  | hblank
  | vblank
  | oamScan
  | drawing
  deriving DecidableEq, Repr

/-- STAT low-bit encoding of the PPU phase, from State::as_u8. -/
def PpuState.as_u8 : PpuState → Nat
  | .hblank => 0
  | .vblank => 1
  | .oamScan => 2
  | .drawing => 3

/-- Modelled from the spec: the APU channel synthesis is out of the core;
the spec reduces the APU to a register-mapped sink/source over the MMU bus
(spec sections 1 and 4.2), so its register file is abstracted as a byte
store. -/
structure Apu where
  regs : Nat → Nat

def Apu.read (a : Apu) (addr : Nat) : Nat := a.regs addr

def Apu.write (a : Apu) (addr data : Nat) : Apu := { regs := upd a.regs addr data }

/-- Matches the APU register addresses (NR10..NR52 and wave pattern RAM)
listed in the Mmu read/write match arms. -/
def isApuAddr (addr : Nat) : Prop :=
  addr = 0xff10 ∨ addr = 0xff11 ∨ addr = 0xff12 ∨ addr = 0xff13 ∨ addr = 0xff14 ∨
  addr = 0xff16 ∨ addr = 0xff17 ∨ addr = 0xff18 ∨ addr = 0xff19 ∨
  addr = 0xff1a ∨ addr = 0xff1b ∨ addr = 0xff1c ∨ addr = 0xff1d ∨ addr = 0xff1e ∨
  addr = 0xff20 ∨ addr = 0xff21 ∨ addr = 0xff22 ∨ addr = 0xff23 ∨
  addr = 0xff24 ∨ addr = 0xff25 ∨ addr = 0xff26 ∨
  (0xff30 ≤ addr ∧ addr ≤ 0xff3f)

instance (addr : Nat) : Decidable (isApuAddr addr) := by
  unfold isApuAddr; infer_instance

/-- Matches the CGB palette I/O addresses listed in the Mmu match arms. -/
def isCramAddr (addr : Nat) : Prop :=
  addr = BACKGROUND_PALETTE_INDEX_REGISTER ∨ addr = BACKGROUND_PALETTE_DATA_REGISTER ∨
  addr = OBJECT_PALETTE_INDEX_REGISTER ∨ addr = OBJECT_PALETTE_DATA_REGISTER

instance (addr : Nat) : Decidable (isCramAddr addr) := by
  unfold isCramAddr; infer_instance

/-- MMU state, from the Mmu struct in mmu.rs.  The 64 KiB backing array,
the CGB VRAM bank 1 and the CGB WRAM banks 1-7 are byte stores. -/
structure Mmu where
  cartridge : Mapper
  joypad : Joypad
  apu : Apu
  cgb_cram : Cram
  cgb_double_speed : Bool
  cgb_prepare_speed_switch : Bool
  memory : Nat → Nat
  cgb_vram_bank1 : Nat → Nat
  cgb_wram_bank1 : Nat → Nat
  cgb_hdma_src : Nat
  cgb_hdma_dst : Nat
  cgb_hdma_transfer_length : Nat
  cgb_hdma_started : Bool
  cgb_hdma_is_hblank_mode : Bool
  bootrom : Nat → Nat
  mode : Mode
  last_ppu_state : PpuState

/-- Boot ROM unmap latch: Mmu::is_bootrom_mapped reads 0xFF50, which the
read match routes to the backing byte. -/
def Mmu.is_bootrom_mapped (m : Mmu) : Bool := m.memory BOOTROM_MAPPER_REGISTER == 0

/-- Current VRAM bank, from Mmu::current_vram_bank (reads 0xFF4F, routed
to the backing byte by the read match). -/
def Mmu.current_vram_bank (m : Mmu) : Nat :=
  if m.mode = .cgb then m.memory VRAM_BANK_SELECT_REGISTER &&& 0b00000001 else 0

/-- Current WRAM bank, from Mmu::current_wram_bank (reads 0xFF70, routed
to the backing byte by the read match). -/
def Mmu.current_wram_bank (m : Mmu) : Nat :=
  if m.mode = .cgb then
    let bank := m.memory WRAM_BANK_SELECT_REGISTER &&& 0b00000111
    if bank = 0 then 1 else bank
  else 0

/-- Checked MMU read, from Mmu::read (the cfg(test) bypass at the top of
the source function is the unit-test configuration and is not modelled).
The match arms appear in source order. -/
def Mmu.read (m : Mmu) (addr : Nat) : Except AyyError Nat :=
  if addr ≤ ROM_END ∧ m.is_bootrom_mapped ∧
      ((m.mode = .dmg ∧ addr ≤ 0xff) ∨ (m.mode = .cgb ∧ (addr < 0x100 ∨ 0x200 ≤ addr))) then
    .ok (m.bootrom addr)
  else if addr ≤ ROM_END then
    m.cartridge.read addr
  else if (VRAM_START ≤ addr ∧ addr ≤ VRAM_END) ∧ m.current_vram_bank = 0 then
    .ok (m.memory addr)
  else if (VRAM_START ≤ addr ∧ addr ≤ VRAM_END) ∧ m.current_vram_bank = 1 then
    .ok (m.cgb_vram_bank1 (addr - VRAM_START))
  else if EXTERNAL_RAM_START ≤ addr ∧ addr ≤ EXTERNAL_RAM_END then
    m.cartridge.read addr
  else if WRAM_BANK1_START ≤ addr ∧ addr ≤ WRAM_BANK1_END then
    let bank := m.current_wram_bank
    if bank > 0 then
      .ok (m.cgb_wram_bank1 ((bank - 1) * 0x1000 + (addr - WRAM_BANK1_START)))
    else
      .ok (m.memory addr)
  else if addr = JOYPAD_REGISTER then
    .ok (m.joypad.as_u8 (m.memory addr))
  else if addr = DOUBLE_SPEED_SWITCH_REGISTER ∧ m.mode = .cgb then
    .ok ((((if m.cgb_double_speed then 1 else 0) <<< 7) % 256)
      ||| (if m.cgb_prepare_speed_switch then 1 else 0))
  else if addr = LCD_STATUS_REGISTER then
    .ok ((m.memory addr &&& 0b11111100) ||| m.last_ppu_state.as_u8)
  else if addr = HDMA_LENGTH_MODE_START_REGISTER ∧ m.mode = .cgb then
    .ok (wsub16 (m.cgb_hdma_transfer_length / 0x10) 1 % 256)
  else if isApuAddr addr then
    .ok (m.apu.read addr)
  else if isCramAddr addr ∧ m.mode = .cgb then
    .ok (m.cgb_cram.read addr)
  else
    .ok (m.memory addr)

/-- Little-endian 16-bit read, from Mmu::read16. -/
def Mmu.read16 (m : Mmu) (addr : Nat) : Except AyyError Nat := do
  let lo ← m.read addr
  let hi ← m.read (wadd16 addr 1)
  pure ((hi <<< 8) ||| lo)

/-- OAM DMA block copy, from Mmu::start_dma_transfer.  The source routes
each destination byte through Mmu::write; every destination address
0xFE00+i with i < 0xA0 falls to the default match arm there, so the
nested call is unfolded to the backing-store update it performs. -/
def Mmu.start_dma_transfer (m : Mmu) (data : Nat) : Except AyyError Mmu :=
  let src_addr := (data % 256) <<< 8
  (List.range 0xa0).foldlM
    (fun acc i => do
      let byte ← acc.read (src_addr + i)
      pure { acc with memory := upd acc.memory (0xfe00 + i) byte })
    m

/-- Checked MMU write without the two re-entrant control arms, from the
match in Mmu::write (arms in source order; the cfg(test) bypass is the
unit-test configuration and is not modelled).  The OAM-DMA and HDMA
length/mode arms are split off into Mmu.write below; this function is
also used to unfold by one level the nested Mmu::write calls made by the
HDMA copy loops, whose destinations never reach those two control
registers in any behaviour considered here. -/
def Mmu.write1 (m : Mmu) (addr data : Nat) : Except AyyError Mmu :=
  if addr ≤ ROM_END ∧ m.is_bootrom_mapped ∧
      ((m.mode = .dmg ∧ addr ≤ 0xff) ∨ (m.mode = .cgb ∧ (addr < 0x100 ∨ 0x200 ≤ addr))) then
    .ok m
  else if addr ≤ ROM_END then
    (m.cartridge.write addr data).map (fun c => { m with cartridge := c })
  else if (VRAM_START ≤ addr ∧ addr ≤ VRAM_END) ∧ m.current_vram_bank = 0 then
    .ok { m with memory := upd m.memory addr data }
  else if (VRAM_START ≤ addr ∧ addr ≤ VRAM_END) ∧ m.current_vram_bank = 1 then
    .ok { m with cgb_vram_bank1 := upd m.cgb_vram_bank1 (addr - VRAM_START) data }
  else if EXTERNAL_RAM_START ≤ addr ∧ addr ≤ EXTERNAL_RAM_END then
    (m.cartridge.write addr data).map (fun c => { m with cartridge := c })
  else if WRAM_BANK1_START ≤ addr ∧ addr ≤ WRAM_BANK1_END then
    let bank := m.current_wram_bank
    if bank > 0 then
      .ok { m with cgb_wram_bank1 := upd m.cgb_wram_bank1 ((bank - 1) * 0x1000 + (addr - WRAM_BANK1_START)) data }
    else
      .ok { m with memory := upd m.memory addr data }
  else if addr = HDMA_VRAM_SRC_HIGH_REGISTER ∧ m.mode = .cgb then
    .ok { m with cgb_hdma_src := (data % 256) <<< 8 }
  else if addr = HDMA_VRAM_SRC_LOW_REGISTER ∧ m.mode = .cgb then
    .ok { m with cgb_hdma_src := (m.cgb_hdma_src &&& 0xff00) ||| (data % 256) }
  else if addr = HDMA_VRAM_DST_HIGH_REGISTER ∧ m.mode = .cgb then
    .ok { m with cgb_hdma_dst := (data % 256) <<< 8 }
  else if addr = HDMA_VRAM_DST_LOW_REGISTER ∧ m.mode = .cgb then
    .ok { m with cgb_hdma_dst := (m.cgb_hdma_dst &&& 0xff00) ||| (data % 256) }
  else if addr = DOUBLE_SPEED_SWITCH_REGISTER ∧ m.mode = .cgb then
    .ok { m with cgb_prepare_speed_switch := data &&& 0b00000001 == 1 }
  else if isApuAddr addr then
    .ok { m with apu := m.apu.write addr data }
  else if isCramAddr addr ∧ m.mode = .cgb then
    .ok { m with cgb_cram := m.cgb_cram.write addr data }
  else
    .ok { m with memory := upd m.memory addr data }

/-- HDMA/GDMA transfer step, from Mmu::tick_hdma.  For each copied byte
the source reads and writes through the unchecked accessors, which unwrap
the checked ones; the unwrap panic on an error is modelled as error
propagation.  Address arithmetic on u16 wraps in release mode. -/
def Mmu.tick_hdma (m : Mmu) : Except AyyError Mmu :=
  if m.cgb_hdma_started ∧ ¬m.cgb_hdma_is_hblank_mode then do
    let m' ← (List.range m.cgb_hdma_transfer_length).foldlM
      (fun acc i => do
        let data ← acc.read (wadd16 acc.cgb_hdma_src i)
        acc.write1 (wadd16 acc.cgb_hdma_dst i) data)
      m
    pure { m' with memory := upd m'.memory HDMA_LENGTH_MODE_START_REGISTER 0xff
                   cgb_hdma_started := false
                   cgb_hdma_is_hblank_mode := false }
  else if m.cgb_hdma_started ∧ m.cgb_hdma_is_hblank_mode ∧ m.last_ppu_state = .hblank then do
    let length := if m.cgb_hdma_transfer_length > 0x10 then 0x10 else m.cgb_hdma_transfer_length
    let m' ← (List.range length).foldlM
      (fun acc i => do
        let data ← acc.read (wadd16 acc.cgb_hdma_src i)
        acc.write1 (wadd16 acc.cgb_hdma_dst i) data)
      m
    let m'' := { m' with cgb_hdma_transfer_length := wsub16 m'.cgb_hdma_transfer_length length
                         cgb_hdma_src := wadd16 m'.cgb_hdma_src length
                         cgb_hdma_dst := wadd16 m'.cgb_hdma_dst length }
    if m''.cgb_hdma_transfer_length = 0 then
      pure { m'' with memory := upd m''.memory HDMA_LENGTH_MODE_START_REGISTER 0xff
                      cgb_hdma_started := false
                      cgb_hdma_is_hblank_mode := false }
    else
      pure m''
  else
    .ok m

/-- HDMA start, from Mmu::start_hdma_transfer. -/
def Mmu.start_hdma_transfer (m : Mmu) (data : Nat) : Except AyyError Mmu :=
  let m := { m with
    cgb_hdma_transfer_length := ((data &&& 0b01111111) + 1) * 0x10 % 0x10000
    cgb_hdma_started := true
    cgb_hdma_is_hblank_mode := data &&& 0b10000000 != 0 }
  let m := if m.cgb_hdma_is_hblank_mode then
      { m with cgb_hdma_dst := wadd16 m.cgb_hdma_dst VRAM_START }
    else m
  m.tick_hdma

/-- Checked MMU write, from Mmu::write.  The two arms that re-enter the
MMU (OAM DMA at 0xFF46 and HDMA length/mode at 0xFF55 on CGB) are tested
first; no earlier arm of the source match can capture these addresses, so
this is behaviour-preserving.  All remaining arms are in Mmu.write1. -/
def Mmu.write (m : Mmu) (addr data : Nat) : Except AyyError Mmu :=
  if addr = OAM_DMA_REGISTER then
    m.start_dma_transfer data
  else if addr = HDMA_LENGTH_MODE_START_REGISTER ∧ m.mode = .cgb then
    if data &&& 0b10000000 = 0 ∧ m.cgb_hdma_is_hblank_mode then
      .ok { m with cgb_hdma_started := false }
    else
      m.start_hdma_transfer data
  else
    m.write1 addr data

/-- Little-endian 16-bit write, from Mmu::write16. -/
def Mmu.write16 (m : Mmu) (addr data : Nat) : Except AyyError Mmu := do
  let m' ← m.write addr (data &&& 0xff)
  m'.write (wadd16 addr 1) ((data >>> 8) % 256)

/-! ## CPU registers and flags (src/src/lr35902/registers.rs, cpu.rs) -/

/-- Flag-byte constants from the Flags bitflags (registers.rs).  The flag
byte itself is a Nat whose defined bits live in the high nibble. -/
def Flags.ZERO : Nat := 0b10000000
def Flags.SUBTRACT : Nat := 0b01000000
def Flags.HALF_CARRY : Nat := 0b00100000
def Flags.CARRY : Nat := 0b00010000

/-- Flags::from_bits_truncate keeps only the four defined high-nibble
bits. -/
def Flags.from_bits_truncate (data : Nat) : Nat := data &&& 0xf0

structure Registers where
  a : Nat
  f : Nat
  b : Nat
  c : Nat
  d : Nat
  e : Nat
  h : Nat
  l : Nat
  sp : Nat
  pc : Nat
  deriving DecidableEq, Repr

def Registers.default : Registers :=
  { a := 0, f := 0, b := 0, c := 0, d := 0, e := 0, h := 0, l := 0, sp := 0, pc := 0 }

/-- Interrupt master enable state (src/src/lr35902/irq.rs). -/
structure Ime where
  enabled : Bool
  enable_pending : Bool
  deriving DecidableEq, Repr

/-- CPU state, from the Cpu struct in cpu.rs.  The decode table (sm83
field) is a pure function and carries no state that the claims touch. -/
structure Cpu where
  registers : Registers
  cycles : Nat
  ime : Ime
  div_cycles : Nat
  halted : Bool
  deriving DecidableEq, Repr

def Cpu.new : Cpu :=
  { registers := Registers.default
    cycles := 0
    ime := { enabled := false, enable_pending := false }
    div_cycles := 0
    halted := false }

/-! ## Instruction model (src/src/lr35902/sm83.rs) -/

inductive Register where
  | A | B | C | D | E | H | L | F | AF | BC | DE | HL | SP | PC
  deriving DecidableEq, Repr

/-- Addressing-mode bitflags (Direct 1, Indirect 2, Increment 4,
Decrement 8), kept as a Nat bit set. -/
def AddressingMode := Nat

def AddressingMode.Direct : Nat := 0b0001
def AddressingMode.Indirect : Nat := 0b0010
def AddressingMode.Increment : Nat := 0b0100
def AddressingMode.Decrement : Nat := 0b1000

inductive Condition where
  | None | NZ | Z | NC | C
  deriving DecidableEq, Repr

inductive Operand where
  | Reg8 (r : Register) (mode : Nat)
  | Reg16 (r : Register) (mode : Nat)
  | Imm8 (v : Nat) (mode : Nat)
  | Imm16 (v : Nat) (mode : Nat)
  | Conditional (c : Condition)
  | DisplacedReg16 (r : Register) (offset : Int) (mode : Nat)
  | Offset (v : Int)
  | Bit (v : Nat)
  deriving DecidableEq, Repr

inductive Opcode where
  | Nop | Ld | Inc | Dec | Rlc | Rrc | Swap | Rr | Srl | Bit | Res | Set
  | Jp | Jr | Call | Ret | Rst | Push | Pop
  | Add | Adc | Sub | Sbc | And | Xor | Or | Cp
  | Reti | Halt | Stop | Di | Ei | Ldh | Ldl
  | Rl | Sla | Sra | Ccf | Scf | Cpl | Daa | Rra | Rla | Rrca | Rlca
  deriving DecidableEq, Repr

structure Instruction where
  opcode : Opcode
  lhs : Option Operand
  rhs : Option Operand
  length : Nat
  cycles : Nat × Option Nat
  deriving DecidableEq, Repr

/-! ## CPU register access (cpu.rs) -/

/-- Cpu::read_register.  The source panics on a 16-bit register name; the
panic arm is unreachable from decoded instructions and is modelled as 0. -/
def Cpu.read_register (cpu : Cpu) (register : Register) : Nat :=
  match register with
  | .A => cpu.registers.a
  | .F => cpu.registers.f
  | .B => cpu.registers.b
  | .C => cpu.registers.c
  | .D => cpu.registers.d
  | .E => cpu.registers.e
  | .H => cpu.registers.h
  | .L => cpu.registers.l
  | _ => 0

/-- Cpu::read_register16 (panic arm modelled as 0). -/
def Cpu.read_register16 (cpu : Cpu) (register : Register) : Nat :=
  match register with
  | .AF => (cpu.registers.a <<< 8) ||| cpu.registers.f
  | .BC => (cpu.registers.b <<< 8) ||| cpu.registers.c
  | .DE => (cpu.registers.d <<< 8) ||| cpu.registers.e
  | .HL => (cpu.registers.h <<< 8) ||| cpu.registers.l
  | .SP => cpu.registers.sp
  | .PC => cpu.registers.pc
  | _ => 0

/-- Cpu::write_register.  Writing F goes through
Flags::from_bits_truncate (panic arm modelled as no-op). -/
def Cpu.write_register (cpu : Cpu) (register : Register) (data : Nat) : Cpu :=
  match register with
  | .A => { cpu with registers := { cpu.registers with a := data } }
  | .F => { cpu with registers := { cpu.registers with f := Flags.from_bits_truncate data } }
  | .B => { cpu with registers := { cpu.registers with b := data } }
  | .C => { cpu with registers := { cpu.registers with c := data } }
  | .D => { cpu with registers := { cpu.registers with d := data } }
  | .E => { cpu with registers := { cpu.registers with e := data } }
  | .H => { cpu with registers := { cpu.registers with h := data } }
  | .L => { cpu with registers := { cpu.registers with l := data } }
  | _ => cpu

/-- Cpu::write_register16.  The low byte written into F goes through
Flags::from_bits_truncate (panic arm modelled as no-op). -/
def Cpu.write_register16 (cpu : Cpu) (register : Register) (value : Nat) : Cpu :=
  let lo := value &&& 0xff
  let hi := (value >>> 8) % 256
  match register with
  | .AF => { cpu with registers :=
      { cpu.registers with a := hi, f := Flags.from_bits_truncate lo } }
  | .BC => { cpu with registers := { cpu.registers with b := hi, c := lo } }
  | .DE => { cpu with registers := { cpu.registers with d := hi, e := lo } }
  | .HL => { cpu with registers := { cpu.registers with h := hi, l := lo } }
  | .SP => { cpu with registers := { cpu.registers with sp := value } }
  | .PC => { cpu with registers := { cpu.registers with pc := value } }
  | _ => cpu

/-- Cpu::read_flag (bitflags contains). -/
def Cpu.read_flag (cpu : Cpu) (flag : Nat) : Bool :=
  cpu.registers.f &&& flag == flag

/-- Cpu::push_stack.  SP drops by two (u16 arithmetic wraps in release
builds) and the value goes through Mmu::write16. -/
def Cpu.push_stack (cpu : Cpu) (mmu : Mmu) (value : Nat) : Except AyyError (Cpu × Mmu) := do
  let cpu := { cpu with registers := { cpu.registers with sp := wsub16 cpu.registers.sp 2 } }
  let mmu ← mmu.write16 cpu.registers.sp value
  pure (cpu, mmu)

/-- Cpu::pop_stack. -/
def Cpu.pop_stack (cpu : Cpu) (mmu : Mmu) : Except AyyError (Nat × Cpu) := do
  let value ← mmu.read16 cpu.registers.sp
  pure (value, { cpu with registers := { cpu.registers with sp := wadd16 cpu.registers.sp 2 } })

/-- Cpu::enable_interrupts. -/
def Cpu.enable_interrupts (cpu : Cpu) (delayed : Bool) : Cpu :=
  if delayed then
    { cpu with ime := { cpu.ime with enable_pending := true } }
  else
    { cpu with ime := { cpu.ime with enabled := true } }

/-- Cpu::disable_interrupts. -/
def Cpu.disable_interrupts (cpu : Cpu) : Cpu :=
  { cpu with ime := { cpu.ime with enabled := false } }

/-! ## Interrupt vectors (src/src/lr35902/irq.rs) -/

inductive Vector where
  | vblank
  | stat
  | timer
  | serial
  | joypad
  deriving DecidableEq, Repr

/-- Interrupt flag bit positions from the InterruptFlags / InterruptEnable
bitflags in src/src/memory/registers.rs. -/
def IrqBit.VBLANK : Nat := 0b00001
def IrqBit.STAT : Nat := 0b00010
def IrqBit.TIMER : Nat := 0b00100
def IrqBit.SERIAL : Nat := 0b01000
def IrqBit.JOYPAD : Nat := 0b10000

/-- Vector::from_flags: pick the lowest-numbered interrupt that is both
enabled and requested.  The source ends in an unreachable panic when no
bit matches, modelled as the none case. -/
def Vector.from_flags (interrupt_enable interrupt_flags : Nat) : Option Vector :=
  if interrupt_enable &&& IrqBit.VBLANK = IrqBit.VBLANK ∧
      interrupt_flags &&& IrqBit.VBLANK = IrqBit.VBLANK then some .vblank
  else if interrupt_enable &&& IrqBit.STAT = IrqBit.STAT ∧
      interrupt_flags &&& IrqBit.STAT = IrqBit.STAT then some .stat
  else if interrupt_enable &&& IrqBit.TIMER = IrqBit.TIMER ∧
      interrupt_flags &&& IrqBit.TIMER = IrqBit.TIMER then some .timer
  else if interrupt_enable &&& IrqBit.SERIAL = IrqBit.SERIAL ∧
      interrupt_flags &&& IrqBit.SERIAL = IrqBit.SERIAL then some .serial
  else if interrupt_enable &&& IrqBit.JOYPAD = IrqBit.JOYPAD ∧
      interrupt_flags &&& IrqBit.JOYPAD = IrqBit.JOYPAD then some .joypad
  else none

/-- Vector::to_address. -/
def Vector.to_address : Vector → Nat
  | .vblank => 0x0040
  | .stat => 0x0048
  | .timer => 0x0050
  | .serial => 0x0058
  | .joypad => 0x0060

/-- Bit index of each interrupt vector (VBlank 0 .. Joypad 4). -/
def Vector.index : Vector → Nat
  | .vblank => 0
  | .stat => 1
  | .timer => 2
  | .serial => 3
  | .joypad => 4

instance : Fintype Vector where
  elems :=
    { val := ↑[Vector.vblank, Vector.stat, Vector.timer, Vector.serial, Vector.joypad]
      nodup := by decide }
  complete := fun v => by cases v <;> decide

/-- Flag bit cleared in IF when this vector is serviced (the per-vector
match arms in Cpu::handle_interrupts). -/
def Vector.flag_bit : Vector → Nat
  | .vblank => IrqBit.VBLANK
  | .stat => IrqBit.STAT
  | .timer => IrqBit.TIMER
  | .serial => IrqBit.SERIAL
  | .joypad => IrqBit.JOYPAD

/-- Body of the vector-servicing block of Cpu::handle_interrupts (the
code under "if self.ime.enabled"): select the vector with
Vector::from_flags, push PC, jump to the vector address, clear the
serviced IF bit (writing the flag bits AND the u8 complement of the
serviced bit) and drop IME.  The unreachable panic when no vector
matches cannot occur while IE AND IF is non-zero and is modelled as an
error. -/
def Cpu.service_interrupt (cpu : Cpu) (mmu : Mmu)
    (interrupt_enable interrupt_flags : Nat) : Except AyyError (Cpu × Mmu) :=
  match Vector.from_flags interrupt_enable interrupt_flags with
  | some vector => do
    let (cpu, mmu) ← cpu.push_stack mmu cpu.registers.pc
    let cpu := { cpu with registers := { cpu.registers with pc := vector.to_address } }
    let mmu ← mmu.write INTERRUPT_FLAGS_REGISTER (interrupt_flags &&& not8 vector.flag_bit)
    let cpu := { cpu with ime := { cpu.ime with enabled := false } }
    pure (cpu, mmu)
  | none => .error (.unknownIrqVector interrupt_flags)

/-- Cpu::handle_interrupts, from cpu.rs.  IE and IF are read through
read_as, whose from_bits_truncate keeps the five defined bits.  Whenever
IE AND IF is non-zero the CPU is unhalted and 20 cycles are added,
whether or not a vector was serviced. -/
def Cpu.handle_interrupts (cpu : Cpu) (mmu : Mmu) : Except AyyError (Cpu × Mmu) := do
  let cpu :=
    if cpu.ime.enable_pending then
      { cpu with ime := { enabled := true, enable_pending := false } }
    else cpu
  let ieByte ← mmu.read INTERRUPT_ENABLE_REGISTER
  let ifByte ← mmu.read INTERRUPT_FLAGS_REGISTER
  let interrupt_enable := ieByte &&& 0b11111
  let interrupt_flags := ifByte &&& 0b11111
  if interrupt_enable &&& interrupt_flags ≠ 0 then do
    let (cpu, mmu) ←
      if cpu.ime.enabled then
        cpu.service_interrupt mmu interrupt_enable interrupt_flags
      else
        pure (cpu, mmu)
    pure ({ cpu with halted := false, cycles := cpu.cycles + 20 }, mmu)
  else
    pure (cpu, mmu)

/-! ## Instruction handlers (src/src/lr35902/handlers.rs) -/

namespace Handlers

/-- Handlers::check_condition. -/
def check_condition (cpu : Cpu) (condition : Condition) : Bool :=
  match condition with
  | .Z => cpu.read_flag Flags.ZERO
  | .NZ => !cpu.read_flag Flags.ZERO
  | .C => cpu.read_flag Flags.CARRY
  | .NC => !cpu.read_flag Flags.CARRY
  | .None => true

/-- Handlers::handle_interrupt: the EI / DI handler.  EI arms the delayed
enable; DI drops the master enable at once.  Returns the base cycle
count. -/
def handle_interrupt (cpu : Cpu) (instruction : Instruction) : Except AyyError (Cpu × Nat) :=
  let cpu :=
    if instruction.opcode = .Ei then
      cpu.enable_interrupts true
    else
      cpu.disable_interrupts
  .ok (cpu, instruction.cycles.1)

/-- Handlers::ret, covering RET, RET cc and RETI.  For a conditional
operand the taken path pops PC, but the returned cycle count is always
the first element of the decoded pair; the second element is only
consumed in the branch for a non-conditional operand, where the source
unwraps it (unwrap of None, and the debug ensure of a missing operand,
are modelled as the invalid-handler error). -/
def ret (cpu : Cpu) (mmu : Mmu) (instruction : Instruction) :
    Except AyyError (Cpu × Mmu × Nat) :=
  match instruction.opcode with
  | .Ret =>
    if instruction.lhs.isNone then .error .invalidHandler
    else
      match instruction.lhs with
      | some (.Conditional cond) => do
        let (cpu, mmu) ←
          if check_condition cpu cond then do
            let (addr, cpu) ← cpu.pop_stack mmu
            pure (cpu.write_register16 .PC addr, mmu)
          else
            pure (cpu, mmu)
        pure (cpu, mmu, instruction.cycles.1)
      | _ =>
        match instruction.cycles.2 with
        | some c => .ok (cpu, mmu, c)
        | none => .error .invalidHandler
  | .Reti => do
    let (addr, cpu) ← cpu.pop_stack mmu
    let cpu := cpu.write_register16 .PC addr
    let cpu := cpu.enable_interrupts false
    pure (cpu, mmu, instruction.cycles.1)
  | _ => .error .invalidHandler

/-- Handlers::pop: pop a 16-bit value into a register pair through
Cpu::write_register16 (so the low nibble of F is truncated on POP AF).
The debug ensure of a missing operand and the non-Reg16 operand arm are
the invalid-handler error. -/
def pop (cpu : Cpu) (mmu : Mmu) (instruction : Instruction) :
    Except AyyError (Cpu × Mmu × Nat) :=
  if instruction.lhs.isNone then .error .invalidHandler
  else
    match instruction.lhs with
    | some (.Reg16 reg _) => do
      let (value, cpu) ← cpu.pop_stack mmu
      pure (cpu.write_register16 reg value, mmu, instruction.cycles.1)
    | _ => .error .invalidHandler

end Handlers

/-! ## Decoder entries needed here (src/src/lr35902/sm83.rs) -/

/-- Sm83::lookup_condition_2bits. -/
def Sm83.lookup_condition_2bits (data : Nat) : Except AyyError Condition :=
  match data with
  | 0b00 => .ok .NZ
  | 0b01 => .ok .Z
  | 0b10 => .ok .NC
  | 0b11 => .ok .C
  | _ => .error (.unknownConditionBits data)

/-- Decoder entry for the 110xx00x pattern (ret cond / ret), from the
sm83.rs lookup table.  The decoded cycle pair for a conditional return
is (20, some 8). -/
def Sm83.decode_ret (mmu : Mmu) (pc : Nat) : Except AyyError Instruction := do
  let opcode_byte ← mmu.read pc
  if opcode_byte &&& 0b00000001 ≠ 0 then
    pure { opcode := .Ret
           lhs := some (.Conditional .None)
           rhs := none
           length := 1
           cycles := (16, none) }
  else do
    let condition ← Sm83.lookup_condition_2bits ((opcode_byte &&& 0b00011000) >>> 3)
    pure { opcode := .Ret
           lhs := some (.Conditional condition)
           rhs := none
           length := 1
           cycles := (20, some 8) }

/-! ## Timer (src/src/lr35902/timer.rs) -/

structure Timer where
  div_cycles : Nat
  tima_cycles : Nat
  deriving DecidableEq, Repr

def Timer.new : Timer := { div_cycles := 0, tima_cycles := 0 }

/-- Timer::tick_div.  The unchecked MMU accessors unwrap the checked
ones; the panic on an error is modelled as error propagation (for the DIV
address both always succeed). -/
def Timer.tick_div (t : Timer) (mmu : Mmu) (cycles : Nat) :
    Except AyyError (Timer × Mmu) := do
  let t := { t with div_cycles := t.div_cycles + cycles }
  if t.div_cycles ≥ 256 then do
    let divByte ← mmu.read DIV_REGISTER
    let mmu ← mmu.write DIV_REGISTER ((divByte + 1) % 256)
    pure ({ t with div_cycles := t.div_cycles - 256 }, mmu)
  else
    pure (t, mmu)

/-- Timer::reset_divider: writes 0 to DIV through the MMU. -/
def Timer.reset_divider (mmu : Mmu) : Except AyyError Mmu :=
  mmu.write DIV_REGISTER 0

/-! ## PPU sprite compositing (src/src/video/) -/

def SCREEN_WIDTH : Nat := 160
def SCREEN_HEIGHT : Nat := 144

/-- Sprite attribute bits from the SpriteAttributes bitflags
(sprite.rs). -/
def SpriteAttributes.PALETTE : Nat := 0b00010000
def SpriteAttributes.FLIP_X : Nat := 0b00100000
def SpriteAttributes.FLIP_Y : Nat := 0b01000000
def SpriteAttributes.PRIORITY : Nat := 0b10000000

/-- OAM sprite record (sprite.rs); x and y hold the raw OAM bytes
(left+8 and top+16). -/
structure Sprite where
  x : Nat
  y : Nat
  tile_index : Nat
  attributes : Nat
  deriving DecidableEq, Repr

/-- Bitflags contains test on an attribute byte. -/
def Sprite.hasAttr (s : Sprite) (bit : Nat) : Bool :=
  s.attributes &&& bit == bit

/-- Palette entry (palette.rs). -/
inductive Palette where
  | White (idx : Nat)
  | LightGray (idx : Nat)
  | DarkGray (idx : Nat)
  | Black (idx : Nat)
  | Transparent (idx : Nat)
  | Color (idx r g b : Nat)
  deriving DecidableEq, Repr

/-- Palette::is_transparent. -/
def Palette.is_transparent (p : Palette) : Bool :=
  p == .Transparent 0

/-- Decoded 8x8 tile (tile.rs); pixels indexed row-then-column. -/
structure Tile where
  pixels : Nat → Nat → Palette
  attributes : Nat

/-- OAM scan entry (the Oam struct in ppu.rs): the sprite record plus its
pre-fetched tile (and bottom tile for 16-pixel sprites). -/
structure Oam where
  sprite : Sprite
  tile1 : Tile
  tile2 : Option Tile

/-- Rust cast of an i32 value to usize; negative values wrap modulo
2 to the 64. -/
def intCastUsize (v : Int) : Nat := (v % ((2 : Int) ^ 64)).toNat

/-- Rust cast of an i32 value to u8 (truncation modulo 256). -/
def intCastU8 (v : Int) : Nat := (v % 256).toNat

/-- Candidate sprite pixels for one screen pixel, from the loop body of
Ppu::fetch_sprite_pixel.  Entries are appended in OAM order. -/
def spriteCandidates (oams : List Oam) (x y sprite_height : Nat) :
    List (Sprite × Palette) :=
  oams.foldl
    (fun acc oam =>
      let sprite := oam.sprite
      let sprite_y : Int := (sprite.y : Int) - 16
      let sprite_x : Int := (sprite.x : Int) - 8
      if x ≥ intCastUsize (max sprite_x 0) ∧
          x < intCastUsize (min (sprite_x + 8) (SCREEN_WIDTH : Int)) ∧
          y ≥ intCastUsize (max sprite_y 0) ∧
          y < intCastUsize (min (sprite_y + (sprite_height : Int)) (SCREEN_HEIGHT : Int)) then
        if sprite_height = 16 then
          match oam.tile2 with
          | some tile_bot =>
            let tile_top := oam.tile1
            let tile_x := intCastU8 (max ((x : Int) - sprite_x) 0)
            let tile_y := intCastU8 (max ((y : Int) - sprite_y) 0)
            let tile_x := if sprite.hasAttr SpriteAttributes.FLIP_X then 7 - tile_x else tile_x
            let tile_y := if sprite.hasAttr SpriteAttributes.FLIP_Y then 15 - tile_y else tile_y
            if tile_x < 8 ∧ tile_y < 16 then
              let color := if tile_y < 8 then tile_top.pixels tile_y tile_x
                else tile_bot.pixels (tile_y - 8) tile_x
              if !color.is_transparent then acc ++ [(sprite, color)] else acc
            else acc
          | none => acc
        else
          let tile := oam.tile1
          let tile_x := intCastU8 (max ((x : Int) - sprite_x) 0)
          let tile_y := intCastU8 (max ((y : Int) - sprite_y) 0)
          let tile_x := if sprite.hasAttr SpriteAttributes.FLIP_X then 7 - tile_x else tile_x
          let tile_y := if sprite.hasAttr SpriteAttributes.FLIP_Y then 7 - tile_y else tile_y
          if tile_x < 8 ∧ tile_y < 8 then
            let color := tile.pixels tile_y tile_x
            if !color.is_transparent then acc ++ [(sprite, color)] else acc
          else acc
      else acc)
    []

/-- Ppu::fetch_sprite_pixel: gather the candidates, stable-sort them by
sprite x in DMG mode, and return the first one.  The saturating u8
subtractions of the flip paths are the Nat truncated subtraction; the
tile2 unwrap for 16-pixel sprites is total on the OAM lists built by
fetch_oams, which always populate it. -/
def Ppu.fetch_sprite_pixel (mode : Mode) (oams : List Oam) (x y sprite_height : Nat) :
    Option (Sprite × Palette) :=
  let sprites := spriteCandidates oams x y sprite_height
  let sprites :=
    if mode = .dmg then
      sprites.mergeSort (fun a b => a.1.x ≤ b.1.x)
    else sprites
  sprites.head?

/-! ## Concrete states used to instantiate the theorems -/

/-- A minimal MMU state with a given backing store, mode and cartridge. -/
def baseMmu (mem : Nat → Nat) (mode : Mode) (cart : Mapper) : Mmu :=
  { cartridge := cart
    joypad := Joypad.new
    apu := { regs := fun _ => 0 }
    cgb_cram := Cram.new
    cgb_double_speed := false
    cgb_prepare_speed_switch := false
    memory := mem
    cgb_vram_bank1 := fun _ => 0
    cgb_wram_bank1 := fun _ => 0
    cgb_hdma_src := 0
    cgb_hdma_dst := 0
    cgb_hdma_transfer_length := 0
    cgb_hdma_started := false
    cgb_hdma_is_hblank_mode := false
    bootrom := fun _ => 0
    mode := mode
    last_ppu_state := .oamScan }

/-- An all-zero flat-ROM cartridge. -/
def zeroRom : Mapper := .rom { memory := fun _ => 0 }

/-- Cartridge holding the RET NZ opcode (0xC0) at address 0x100. -/
def c3mmu : Mmu :=
  baseMmu (fun _ => 0) .dmg (.rom { memory := fun a => if a = 0x100 then 0xc0 else 0 })

/-- CPU state with the Zero flag set (so NZ is false). -/
def c3cpu : Cpu :=
  { Cpu.new with registers := { Registers.default with f := 0x80, sp := 0xfffe } }

/-- Decoded RET NZ instruction record, as produced by the 110xx00x
decoder entry for opcode byte 0xC0. -/
def retNZ : Instruction :=
  { opcode := .Ret
    lhs := some (.Conditional .NZ)
    rhs := none
    length := 1
    cycles := (20, some 8) }

/-- OAM sprite with stored y = 0 (entirely above the screen), x = 8,
8-pixel height, vertical flip set. -/
def c7sprite : Sprite :=
  { x := 8, y := 0, tile_index := 0, attributes := SpriteAttributes.FLIP_Y }

/-- Tile all of whose pixels are opaque colour-1 white. -/
def c7tile : Tile := { pixels := fun _ _ => .White 1, attributes := 0 }

def c7oam : Oam := { sprite := c7sprite, tile1 := c7tile, tile2 := none }

/-- MMU whose backing store enables VBlank in IE and requests VBlank,
Timer and Joypad in IF (0x15), with an HRAM-resident stack. -/
def c1mmu : Mmu :=
  baseMmu (fun a => if a = INTERRUPT_ENABLE_REGISTER then 1
    else if a = INTERRUPT_FLAGS_REGISTER then 0x15 else 0) .dmg zeroRom

/-- CPU with IME enabled, PC 0x1234 and SP 0xFFFE. -/
def c1cpu : Cpu :=
  { Cpu.new with ime := { enabled := true, enable_pending := false }
                 registers := { Registers.default with pc := 0x1234, sp := 0xfffe } }

/-- CPU with IME disabled, PC 0x1234 and SP 0xFFFE. -/
def c1cpuDisabled : Cpu :=
  { Cpu.new with registers := { Registers.default with pc := 0x1234, sp := 0xfffe } }

/-- CPU with an EI commit pending (enable_pending armed, IME off). -/
def c2cpu : Cpu :=
  { Cpu.new with ime := { enabled := false, enable_pending := true } }

/-- MMU with no interrupt enabled or requested. -/
def c2mmu : Mmu := baseMmu (fun _ => 0) .dmg zeroRom

/-- Decoded EI instruction record (0xFB: one byte, 4 cycles). -/
def eiInstr : Instruction :=
  { opcode := .Ei, lhs := none, rhs := none, length := 1, cycles := (4, none) }

/-- Decoded DI instruction record (0xF3: one byte, 4 cycles). -/
def diInstr : Instruction :=
  { opcode := .Di, lhs := none, rhs := none, length := 1, cycles := (4, none) }

/-- Decoded POP AF instruction record (0xF1: one byte, 12 cycles). -/
def popAF : Instruction :=
  { opcode := .Pop
    lhs := some (.Reg16 .AF AddressingMode.Direct)
    rhs := none
    length := 1
    cycles := (12, none) }

/-- MMU with 0xAB and 0xCD at the HRAM stack top 0xFFF0. -/
def c8mmu : Mmu :=
  baseMmu (fun a => if a = 0xfff0 then 0xab else if a = 0xfff1 then 0xcd else 0)
    .dmg zeroRom

/-- CPU whose SP points at the HRAM stack top 0xFFF0. -/
def c8cpu : Cpu :=
  { Cpu.new with registers := { Registers.default with sp := 0xfff0 } }

/-! ## Routing lemmas for the MMU -/

/-- Reads above the WRAM window that hit none of the I/O special cases
fall to the default arm and return the backing byte. -/
theorem Mmu.read_default (m : Mmu) (addr : Nat)
    (h : 0xdfff < addr)
    (h0 : addr ≠ JOYPAD_REGISTER)
    (h1 : addr ≠ DOUBLE_SPEED_SWITCH_REGISTER)
    (h2 : addr ≠ LCD_STATUS_REGISTER)
    (h3 : addr ≠ HDMA_LENGTH_MODE_START_REGISTER)
    (h4 : ¬isApuAddr addr)
    (h5 : ¬isCramAddr addr) :
    m.read addr = .ok (m.memory addr) := by
  unfold Mmu.read
  rw [if_neg (fun hc => absurd hc.1 (by unfold ROM_END; omega))]
  rw [if_neg (by unfold ROM_END; omega)]
  rw [if_neg (fun hc => absurd hc.1.2 (by unfold VRAM_END; omega))]
  rw [if_neg (fun hc => absurd hc.1.2 (by unfold VRAM_END; omega))]
  rw [if_neg (fun hc => absurd hc.2 (by unfold EXTERNAL_RAM_END; omega))]
  rw [if_neg (fun hc => absurd hc.2 (by unfold WRAM_BANK1_END; omega))]
  rw [if_neg h0]
  rw [if_neg (fun hc => h1 hc.1)]
  rw [if_neg h2]
  rw [if_neg (fun hc => h3 hc.1)]
  rw [if_neg h4]
  rw [if_neg (fun hc => h5 hc.1)]

/-- Writes above the WRAM window that hit none of the I/O special cases
fall to the default arm and update the backing byte. -/
theorem Mmu.write_default (m : Mmu) (addr data : Nat)
    (h : 0xdfff < addr)
    (hd : addr ≠ OAM_DMA_REGISTER)
    (h3 : addr ≠ HDMA_LENGTH_MODE_START_REGISTER)
    (hs1 : addr ≠ HDMA_VRAM_SRC_HIGH_REGISTER)
    (hs2 : addr ≠ HDMA_VRAM_SRC_LOW_REGISTER)
    (hs3 : addr ≠ HDMA_VRAM_DST_HIGH_REGISTER)
    (hs4 : addr ≠ HDMA_VRAM_DST_LOW_REGISTER)
    (h1 : addr ≠ DOUBLE_SPEED_SWITCH_REGISTER)
    (h4 : ¬isApuAddr addr)
    (h5 : ¬isCramAddr addr) :
    m.write addr data = .ok { m with memory := upd m.memory addr data } := by
  unfold Mmu.write
  rw [if_neg hd]
  rw [if_neg (fun hc => h3 hc.1)]
  unfold Mmu.write1
  rw [if_neg (fun hc => absurd hc.1 (by unfold ROM_END; omega))]
  rw [if_neg (by unfold ROM_END; omega)]
  rw [if_neg (fun hc => absurd hc.1.2 (by unfold VRAM_END; omega))]
  rw [if_neg (fun hc => absurd hc.1.2 (by unfold VRAM_END; omega))]
  rw [if_neg (fun hc => absurd hc.2 (by unfold EXTERNAL_RAM_END; omega))]
  rw [if_neg (fun hc => absurd hc.2 (by unfold WRAM_BANK1_END; omega))]
  rw [if_neg (fun hc => hs1 hc.1)]
  rw [if_neg (fun hc => hs2 hc.1)]
  rw [if_neg (fun hc => hs3 hc.1)]
  rw [if_neg (fun hc => hs4 hc.1)]
  rw [if_neg (fun hc => h1 hc.1)]
  rw [if_neg h4]
  rw [if_neg (fun hc => h5 hc.1)]

/-- Joypad-register reads route to the joypad view applied to the last
written byte. -/
theorem Mmu.read_joypad (m : Mmu) :
    m.read JOYPAD_REGISTER = .ok (m.joypad.as_u8 (m.memory JOYPAD_REGISTER)) := by
  unfold Mmu.read
  rw [if_neg (fun hc => absurd hc.1 (by unfold JOYPAD_REGISTER ROM_END; omega))]
  rw [if_neg (by unfold JOYPAD_REGISTER ROM_END; omega)]
  rw [if_neg (fun hc => absurd hc.1.2 (by unfold JOYPAD_REGISTER VRAM_END; omega))]
  rw [if_neg (fun hc => absurd hc.1.2 (by unfold JOYPAD_REGISTER VRAM_END; omega))]
  rw [if_neg (fun hc => absurd hc.2 (by unfold JOYPAD_REGISTER EXTERNAL_RAM_END; omega))]
  rw [if_neg (fun hc => absurd hc.2 (by unfold JOYPAD_REGISTER WRAM_BANK1_END; omega))]
  rw [if_pos rfl]

set_option maxRecDepth 4096 in
/-- Complementing a byte whose low nibble is clear yields a low nibble of
0xF. -/
theorem not8_low_nibble : ∀ t, t < 256 → t &&& 15 = 0 → not8 t &&& 15 = 15 := by
  decide

/-- Low nibble of the joypad read-back when neither row is selected. -/
theorem Joypad.as_u8_deselected (j : Joypad) (s : Nat)
    (h : s &&& 0b00110000 = 0b00110000) :
    j.as_u8 s &&& 0x0f = 0x0f := by
  have h32 : s &&& 32 = 32 := by
    conv_lhs => rw [show (32 : Nat) = 48 &&& 32 from by decide]
    rw [← Nat.and_assoc, h]
    decide
  have h16 : s &&& 16 = 16 := by
    conv_lhs => rw [show (16 : Nat) = 48 &&& 16 from by decide]
    rw [← Nat.and_assoc, h]
    decide
  have hle : s &&& 240 ≤ 240 := Nat.and_le_right
  have hnib : s &&& 240 &&& 15 = 0 := by
    rw [Nat.and_assoc, show (240 : Nat) &&& 15 = 0 from by decide, Nat.and_zero]
  simp only [Joypad.as_u8, h32, h16]
  norm_num
  exact not8_low_nibble (s &&& 240) (by omega) hnib

/-- C10: for every joypad button state, a read of 0xFF00 while both
select bits (4 and 5) of the last written byte are 1 (neither row
selected) returns a byte whose low nibble is 0xF, so no button press is
observable. -/
theorem C10_deselected_joypad_reads_high_nibble (m : Mmu)
    (h : m.memory JOYPAD_REGISTER &&& 0b00110000 = 0b00110000) :
    ∃ r, m.read JOYPAD_REGISTER = .ok r ∧ r &&& 0x0f = 0x0f :=
  ⟨m.joypad.as_u8 (m.memory JOYPAD_REGISTER), m.read_joypad,
    Joypad.as_u8_deselected _ _ h⟩

/-- Witness for C10 at a concrete state: select byte 0x30, all buttons
released. -/
theorem C10_witness :
    ∃ r, (baseMmu (fun _ => 0x30) .dmg zeroRom).read JOYPAD_REGISTER = .ok r
      ∧ r &&& 0x0f = 0x0f :=
  C10_deselected_joypad_reads_high_nibble (baseMmu (fun _ => 0x30) .dmg zeroRom)
    (by decide)

/-- Counterexample for C9: writing the background palette index register
(0xFF68) changes the object palette data port's auto-increment behaviour,
because the auto-increment flag is shared.  With auto-increment armed
through 0xFF6A, an object data-port write advances the object address to
1; after an intervening write of 0x00 to 0xFF68 the same data-port write
leaves the object address at 0. -/
theorem C9_counterexample :
    ((Cram.new.write OBJECT_PALETTE_INDEX_REGISTER 0x80).write
        OBJECT_PALETTE_DATA_REGISTER 0x12).obj_address = 1
  ∧ (((Cram.new.write OBJECT_PALETTE_INDEX_REGISTER 0x80).write
        BACKGROUND_PALETTE_INDEX_REGISTER 0x00).write
        OBJECT_PALETTE_DATA_REGISTER 0x12).obj_address = 0 := by
  constructor <;> rfl

/-- C9 (amended): the two palette memories have separate 6-bit address
registers, but a single shared auto-increment flag.  Writing either index
register sets only that palette's address (bits 0-5) and overwrites the
shared auto-increment flag (bit 7), which then governs the data-port
auto-increment of both palettes. -/
theorem C9_shared_auto_increment (c : Cram) (d : Nat) :
    ((c.write BACKGROUND_PALETTE_INDEX_REGISTER d).bg_address = d &&& 0x3f
      ∧ (c.write BACKGROUND_PALETTE_INDEX_REGISTER d).obj_address = c.obj_address
      ∧ (c.write BACKGROUND_PALETTE_INDEX_REGISTER d).auto_increment = (d &&& 0x80 != 0))
  ∧ ((c.write OBJECT_PALETTE_INDEX_REGISTER d).obj_address = d &&& 0x3f
      ∧ (c.write OBJECT_PALETTE_INDEX_REGISTER d).bg_address = c.bg_address
      ∧ (c.write OBJECT_PALETTE_INDEX_REGISTER d).auto_increment = (d &&& 0x80 != 0))
  ∧ (∀ e, ((c.write BACKGROUND_PALETTE_INDEX_REGISTER d).write
        OBJECT_PALETTE_DATA_REGISTER e).obj_address
      = (if d &&& 0x80 != 0 then ((c.obj_address + 1) % 256) &&& 0x3f
         else c.obj_address)) := by
  refine ⟨⟨?_, ?_, ?_⟩, ⟨?_, ?_, ?_⟩, fun e => ?_⟩ <;>
    simp [Cram.write, BACKGROUND_PALETTE_INDEX_REGISTER,
      BACKGROUND_PALETTE_DATA_REGISTER, OBJECT_PALETTE_INDEX_REGISTER,
      OBJECT_PALETTE_DATA_REGISTER]

/-- Counterexample for C6: an MBC5 write into external RAM space while
the RAM-enable latch is off does not fail with the write-to-disabled-RAM
error; it returns Ok and leaves the mapper state unchanged. -/
theorem C6_counterexample :
    (Mapper.mbc5 ⟨fun _ => 0, fun _ => 0, 1, 0, false, false⟩).write 0xa000 0x55
      = .ok (Mapper.mbc5 ⟨fun _ => 0, fun _ => 0, 1, 0, false, false⟩) := by
  rfl

/-- C6 (amended): for every address in external RAM space with the
RAM-enable latch off, an MBC1 write fails with the write-to-disabled-RAM
error and leaves the mapper unchanged (the error path returns before any
mutation), while an MBC5 write succeeds silently with the mapper state
unchanged; in both cases RAM contents and bank registers are untouched. -/
theorem C6_disabled_ram_writes (addr data : Nat)
    (h1 : EXTERNAL_RAM_START ≤ addr) (h2 : addr ≤ EXTERNAL_RAM_END) :
    (∀ m : Mbc1, m.ram_enabled = false →
        m.write addr data = .error (.writeToDisabledExternalRam addr data))
  ∧ (∀ m : Mbc5, m.ram_enabled = false → m.write addr data = .ok m) := by
  unfold EXTERNAL_RAM_START at h1
  unfold EXTERNAL_RAM_END at h2
  constructor
  · intro m hm
    unfold Mbc1.write
    rw [if_neg (by omega)]
    rw [if_neg (fun hc => by omega)]
    rw [if_neg (fun hc => absurd hc.1.2 (by omega))]
    rw [if_neg (fun hc => absurd hc.1.2 (by omega))]
    rw [if_neg (fun hc => by omega)]
    rw [if_pos (by unfold EXTERNAL_RAM_START EXTERNAL_RAM_END; omega)]
    rw [hm]
    rfl
  · intro m hm
    unfold Mbc5.write
    rw [if_neg (by omega)]
    rw [if_neg (fun hc => by omega)]
    rw [if_neg (fun hc => by omega)]
    rw [if_neg (fun hc => by omega)]
    rw [if_neg (fun hc => by simp [hm] at hc)]
    rw [if_pos (by simp [hm]; omega)]

/-- Witness for C6 at a concrete input: address 0xA000, data 0, with both
mappers freshly constructed (RAM disabled). -/
theorem C6_witness :
    ((⟨fun _ => 0, 1, fun _ => 0, 0, false, false, false⟩ : Mbc1).write 0xa000 0
        = .error (.writeToDisabledExternalRam 0xa000 0))
  ∧ ((⟨fun _ => 0, fun _ => 0, 1, 0, false, false⟩ : Mbc5).write 0xa000 0
        = .ok (⟨fun _ => 0, fun _ => 0, 1, 0, false, false⟩ : Mbc5)) :=
  ⟨(C6_disabled_ram_writes 0xa000 0 (by decide) (by decide)).1 _ rfl,
   (C6_disabled_ram_writes 0xa000 0 (by decide) (by decide)).2 _ rfl⟩

/-- Counterexample for C4: after writing 0x5A to DIV (0xFF04) the
immediately following read returns 0x5A, not 0 — the MMU has no special
arm for DIV and simply stores the byte. -/
theorem C4_counterexample :
    ∃ m', (baseMmu (fun _ => 0) .dmg zeroRom).write DIV_REGISTER 0x5a = .ok m'
      ∧ m'.read DIV_REGISTER = .ok 0x5a ∧ (0x5a : Nat) ≠ 0 := by
  refine ⟨_, rfl, ?_, by decide⟩
  rfl

/-- C4 (amended): a write of d to the DIV register stores d in the
backing byte and an immediately following read returns d; the internal
divider counters are not touched by the write (DIV is cleared only by
Timer::reset_divider, which the STOP path invokes). -/
theorem C4_div_write_stores_value (m : Mmu) (d : Nat) :
    ∃ m', m.write DIV_REGISTER d = .ok m'
      ∧ m'.memory DIV_REGISTER = d
      ∧ m'.read DIV_REGISTER = .ok d := by
  have hw := m.write_default DIV_REGISTER d (by decide) (by decide) (by decide)
    (by decide) (by decide) (by decide) (by decide) (by decide)
    (by decide) (by decide)
  refine ⟨_, hw, by simp [upd], ?_⟩
  have hr := Mmu.read_default { m with memory := upd m.memory DIV_REGISTER d }
    DIV_REGISTER (by decide) (by decide) (by decide) (by decide) (by decide)
    (by decide) (by decide)
  rw [hr]
  simp [upd]

/-- Witness for C4 (amended) at d = 0x5A on a concrete machine. -/
theorem C4_witness :
    ∃ m', (baseMmu (fun _ => 0) .dmg zeroRom).write DIV_REGISTER 0x5a = .ok m'
      ∧ m'.memory DIV_REGISTER = 0x5a
      ∧ m'.read DIV_REGISTER = .ok 0x5a :=
  C4_div_write_stores_value (baseMmu (fun _ => 0) .dmg zeroRom) 0x5a

/-- Bit view of the u8 complement. -/
theorem not8_testBit (x i : Nat) (h : i < 8) : (not8 x).testBit i = !x.testBit i := by
  unfold not8
  rw [show (256 : Nat) = 2 ^ 8 from rfl]
  rw [Nat.testBit_xor, Nat.testBit_mod_two_pow]
  have h255 : Nat.testBit 255 i = true := by interval_cases i <;> decide
  simp [h, h255]

/-- Input of the row applied by the joypad read-back at low-nibble bit i:
the button row when bit 5 of the select byte is 0, else the direction row
when bit 4 is 0, else nothing. -/
def appliedRowPressed (j : Joypad) (s i : Nat) : Bool :=
  if s &&& 0b00100000 == 0 then
    if i = 0 then j.a else if i = 1 then j.b
    else if i = 2 then j.select else if i = 3 then j.start else false
  else if s &&& 0b00010000 == 0 then
    if i = 0 then j.right else if i = 1 then j.left
    else if i = 2 then j.up else if i = 3 then j.down else false
  else false

/-- Counterexample for C5 at select byte 0x00 (both rows selected) with
only Up pressed: the read-back is 0xFF, whose high nibble 0xF differs
from the written high nibble 0x0 (the whole byte is complemented), and
whose bit 2 is set even though Up is pressed in a selected row (the
direction row is ignored when the button row is also selected). -/
theorem C5_counterexample :
    ({ Joypad.new with up := true } : Joypad).as_u8 0x00 = 0xff
  ∧ (0xff : Nat) &&& 0xf0 ≠ (0x00 : Nat) &&& 0xf0
  ∧ Nat.testBit 0xff 2 = true := by
  refine ⟨by decide, by decide, by decide⟩

/-- Low-nibble bits contributed by the selected joypad row, in the OR
order of the source (start/select/b/a for the button row, down/up/left/
right for the direction row). -/
def buttonRowBits (j : Joypad) : Nat :=
  (if j.start then 8 else 0) ||| (if j.select then 4 else 0)
    ||| (if j.b then 2 else 0) ||| (if j.a then 1 else 0)

def directionRowBits (j : Joypad) : Nat :=
  (if j.down then 8 else 0) ||| (if j.up then 4 else 0)
    ||| (if j.left then 2 else 0) ||| (if j.right then 1 else 0)

def rowBits (j : Joypad) (s : Nat) : Nat :=
  if s &&& 0b00100000 == 0 then buttonRowBits j
  else if s &&& 0b00010000 == 0 then directionRowBits j
  else 0

/-- The joypad read-back in closed form: complement of the written high
nibble ORed with the applied row's pressed bits. -/
theorem as_u8_eq_rowBits (j : Joypad) (s : Nat) :
    j.as_u8 s = not8 ((s &&& 240) ||| rowBits j s) := by
  simp only [Joypad.as_u8, rowBits, buttonRowBits, directionRowBits]
  by_cases hb : s &&& 32 = 0
  · simp only [if_pos (beq_iff_eq.mpr hb)]
    cases hx : j.start <;> cases hy : j.select <;> cases hz : j.b <;> cases hw : j.a <;>
      simp [Nat.or_assoc]
  · simp only [if_neg (fun hc => hb (beq_iff_eq.mp hc))]
    by_cases hd : s &&& 16 = 0
    · simp only [if_pos (beq_iff_eq.mpr hd)]
      cases hx : j.down <;> cases hy : j.up <;> cases hz : j.left <;> cases hw : j.right <;>
        simp [Nat.or_assoc]
    · simp only [if_neg (fun hc => hd (beq_iff_eq.mp hc))]
      simp

/-- The row-bit nibble has no high bits. -/
theorem rowBits_testBit_high (j : Joypad) (s i : Nat) (h4 : 4 ≤ i) (h8 : i < 8) :
    (rowBits j s).testBit i = false := by
  simp only [rowBits, buttonRowBits, directionRowBits]
  by_cases hb : s &&& 32 = 0
  · simp only [if_pos (beq_iff_eq.mpr hb)]
    cases hx : j.start <;> cases hy : j.select <;> cases hz : j.b <;> cases hw : j.a <;>
      interval_cases i <;> decide
  · simp only [if_neg (fun hc => hb (beq_iff_eq.mp hc))]
    by_cases hd : s &&& 16 = 0
    · simp only [if_pos (beq_iff_eq.mpr hd)]
      cases hx : j.down <;> cases hy : j.up <;> cases hz : j.left <;> cases hw : j.right <;>
        interval_cases i <;> decide
    · simp only [if_neg (fun hc => hd (beq_iff_eq.mp hc))]
      interval_cases i <;> decide

/-- Each low bit of the row-bit nibble is exactly the applied row's
pressed input. -/
theorem rowBits_testBit_low (j : Joypad) (s i : Nat) (h4 : i < 4) :
    (rowBits j s).testBit i = appliedRowPressed j s i := by
  simp only [rowBits, buttonRowBits, directionRowBits, appliedRowPressed]
  by_cases hb : s &&& 32 = 0
  · simp only [if_pos (beq_iff_eq.mpr hb)]
    cases hx : j.start <;> cases hy : j.select <;> cases hz : j.b <;> cases hw : j.a <;>
      interval_cases i <;> decide
  · simp only [if_neg (fun hc => hb (beq_iff_eq.mp hc))]
    by_cases hd : s &&& 16 = 0
    · simp only [if_pos (beq_iff_eq.mpr hd)]
      cases hx : j.down <;> cases hy : j.up <;> cases hz : j.left <;> cases hw : j.right <;>
        interval_cases i <;> decide
    · simp only [if_neg (fun hc => hd (beq_iff_eq.mp hc))]
      interval_cases i <;> decide

/-- C5 (amended): the byte read back at 0xFF00 is the bitwise complement
of the select byte's high nibble together with the applied row's pressed
bits: each high bit (4..7) of the result is the complement of the written
bit, and each low-nibble bit is cleared exactly when the corresponding
input of the applied row is pressed, where the applied row is the button
row when bit 5 is 0, else the direction row when bit 4 is 0, else none
(so when both rows are selected only the button row applies). -/
theorem C5_joypad_readback (j : Joypad) (s : Nat) :
    (∀ i, 4 ≤ i → i < 8 → (j.as_u8 s).testBit i = !s.testBit i)
  ∧ (∀ i, i < 4 → (j.as_u8 s).testBit i = !appliedRowPressed j s i) := by
  constructor
  · intro i h4 h8
    rw [as_u8_eq_rowBits, not8_testBit _ _ h8, Nat.testBit_lor, Nat.testBit_land,
      rowBits_testBit_high j s i h4 h8]
    have h240 : Nat.testBit 240 i = true := by interval_cases i <;> decide
    simp [h240]
  · intro i h4
    rw [as_u8_eq_rowBits, not8_testBit _ _ (by omega), Nat.testBit_lor,
      Nat.testBit_land, rowBits_testBit_low j s i h4]
    have h240 : Nat.testBit 240 i = false := by interval_cases i <;> decide
    simp [h240]

/-- C8: writing any 8-bit value f to the F register — directly, through a
16-bit write to AF, or through POP AF — and reading F back yields
f AND 0xF0: the low nibble of F is always truncated to zero (for the
16-bit paths, f is the low byte of the written or popped 16-bit value). -/
theorem C8_flag_low_nibble_truncated :
    (∀ (cpu : Cpu) (f : Nat), (cpu.write_register .F f).read_register .F = f &&& 0xf0)
  ∧ (∀ (cpu : Cpu) (v : Nat), (cpu.write_register16 .AF v).read_register .F = v &&& 0xf0)
  ∧ (∀ (cpu : Cpu) (mmu : Mmu) (instr : Instruction) (v : Nat),
      instr.lhs = some (.Reg16 .AF AddressingMode.Direct) →
      mmu.read16 cpu.registers.sp = .ok v →
      ∃ cpu', Handlers.pop cpu mmu instr = .ok (cpu', mmu, instr.cycles.1)
        ∧ cpu'.read_register .F = v &&& 0xf0) := by
  have hand : ∀ v : Nat, (v &&& 0xff) &&& 0xf0 = v &&& 0xf0 := by
    intro v
    rw [Nat.and_assoc, show (0xff : Nat) &&& 0xf0 = 0xf0 from by decide]
  refine ⟨fun cpu f => rfl, fun cpu v => ?_, fun cpu mmu instr v hl hr => ?_⟩
  · simp only [Cpu.write_register16, Cpu.read_register, Flags.from_bits_truncate]
    exact hand v
  · refine ⟨(({ cpu with registers :=
        { cpu.registers with sp := wadd16 cpu.registers.sp 2 } } : Cpu).write_register16
        .AF v), ?_, ?_⟩
    · simp only [Handlers.pop, hl, Option.isNone_some, Bool.false_eq_true, if_false,
        Cpu.pop_stack, hr, Except.bind, bind, pure, Except.pure]
    · simp only [Cpu.write_register16, Cpu.read_register, Flags.from_bits_truncate]
      exact hand v

/-- Witness for C8 at a concrete state: popping 0xCDAB from an HRAM
stack into AF leaves F = 0xA0. -/
theorem C8_witness :
    ((Cpu.new.write_register .F 0xab).read_register .F = 0xab &&& 0xf0)
  ∧ ((Cpu.new.write_register16 .AF 0xcdab).read_register .F = 0xcdab &&& 0xf0)
  ∧ (∃ cpu', Handlers.pop c8cpu c8mmu popAF = .ok (cpu', c8mmu, popAF.cycles.1)
      ∧ cpu'.read_register .F = 0xcdab &&& 0xf0) :=
  ⟨C8_flag_low_nibble_truncated.1 Cpu.new 0xab,
   C8_flag_low_nibble_truncated.2.1 Cpu.new 0xcdab,
   C8_flag_low_nibble_truncated.2.2 c8cpu c8mmu popAF 0xcdab rfl (by rfl)⟩

/-- C7: a sprite whose stored OAM y is 0 lies entirely above the screen
and must never be composited, yet with 8-pixel height and the vertical
flip attribute the source samples tile row 0 for it on every scanline:
fetch_sprite_pixel returns its pixel at screen position (0, 5).  The
negative scanline window (sprite_y + height = -8) wraps through the
i32-to-usize cast and the saturating flip subtraction clamps the row
back into bounds. -/
theorem C7_hidden_sprite_rendered :
    c7sprite.y = 0
  ∧ Ppu.fetch_sprite_pixel .dmg [c7oam] 0 5 8 = some (c7sprite, .White 1) := by
  refine ⟨rfl, ?_⟩
  unfold Ppu.fetch_sprite_pixel
  rw [show spriteCandidates [c7oam] 0 5 8 = [(c7sprite, .White 1)] from by decide]
  simp

/-- C3: the decoder emits the cycle pair (20, 8) for RET NZ, and with the
Zero flag set the condition is false, yet Handlers::ret returns the
first (taken) element 20 — not the 8 the claim requires — because it
returns cycles.0 on both paths of a conditional return. -/
theorem C3_ret_not_taken_reports_taken_cycles :
    Sm83.decode_ret c3mmu 0x100 = .ok retNZ
  ∧ retNZ.cycles = (20, some 8)
  ∧ Handlers.check_condition c3cpu .NZ = false
  ∧ Handlers.ret c3cpu c3mmu retNZ = .ok (c3cpu, c3mmu, 20) :=
  ⟨rfl, rfl, rfl, rfl⟩

/-- Reads of the IE register hit the default arm. -/
theorem Mmu.read_IE (m : Mmu) :
    m.read INTERRUPT_ENABLE_REGISTER = .ok (m.memory INTERRUPT_ENABLE_REGISTER) :=
  Mmu.read_default m _ (by decide) (by decide) (by decide) (by decide) (by decide)
    (by decide) (by decide)

/-- Reads of the IF register hit the default arm. -/
theorem Mmu.read_IF (m : Mmu) :
    m.read INTERRUPT_FLAGS_REGISTER = .ok (m.memory INTERRUPT_FLAGS_REGISTER) :=
  Mmu.read_default m _ (by decide) (by decide) (by decide) (by decide) (by decide)
    (by decide) (by decide)

/-- Pushing onto the stack never touches the IME state. -/
theorem Cpu.push_stack_ime (cpu : Cpu) (mmu : Mmu) (v : Nat) (out : Cpu × Mmu)
    (h : cpu.push_stack mmu v = .ok out) : out.1.ime = cpu.ime := by
  unfold Cpu.push_stack at h
  simp only [bind, Except.bind, pure, Except.pure] at h
  split at h
  · simp at h
  · simp only [Except.ok.injEq] at h
    rw [← h]

/-- The always-performed step 1 of Cpu::handle_interrupts: a pending
enable commits to the enabled flag before the interrupt check, so the
rest of the step behaves as if IME had been enabled all along. -/
theorem Cpu.handle_interrupts_commit (cpu : Cpu) (mmu : Mmu)
    (hp : cpu.ime.enable_pending = true) :
    cpu.handle_interrupts mmu
      = Cpu.handle_interrupts
          { cpu with ime := { enabled := true, enable_pending := false } } mmu := by
  conv_lhs => unfold Cpu.handle_interrupts
  conv_rhs => unfold Cpu.handle_interrupts
  rw [if_pos hp, if_neg (by simp)]

/-- Servicing a vector drops the enabled flag and leaves enable_pending
untouched. -/
theorem Cpu.service_interrupt_ime (cpu : Cpu) (mmu : Mmu) (ie ifl : Nat)
    (out : Cpu × Mmu) (h : cpu.service_interrupt mmu ie ifl = .ok out) :
    out.1.ime.enabled = false ∧ out.1.ime.enable_pending = cpu.ime.enable_pending := by
  unfold Cpu.service_interrupt at h
  split at h
  · simp only [bind, Except.bind, pure, Except.pure] at h
    split at h
    · simp at h
    · rename_i x pm hps
      split at h
      · simp at h
      · rename_i y m3 hw
        have h2 := Except.ok.inj h
        have hime := Cpu.push_stack_ime _ _ _ _ hps
        rw [← h2]
        refine ⟨rfl, ?_⟩
        show pm.1.ime.enable_pending = cpu.ime.enable_pending
        rw [show pm.1.ime = cpu.ime from hime]
  · simp at h

/-- When enable_pending is already clear, Cpu::handle_interrupts never
sets it: every constructed result carries it unchanged. -/
theorem Cpu.handle_interrupts_pending_stays_clear (cpu : Cpu) (mmu : Mmu)
    (out : Cpu × Mmu) (hc : cpu.ime.enable_pending = false)
    (h : cpu.handle_interrupts mmu = .ok out) :
    out.1.ime.enable_pending = false := by
  unfold Cpu.handle_interrupts at h
  rw [if_neg (by simp [hc]), Mmu.read_IE, Mmu.read_IF] at h
  simp only [bind, Except.bind, pure, Except.pure] at h
  split at h
  · split at h
    · split at h
      · simp at h
      · rename_i x pm hsv
        have h2 := Except.ok.inj h
        have hsvi := Cpu.service_interrupt_ime _ _ _ _ _ hsv
        rw [← h2]
        show pm.1.ime.enable_pending = false
        rw [hsvi.2]
        exact hc
    · have h2 := Except.ok.inj h
      rw [← h2]
      exact hc
  · have h2 := Except.ok.inj h
    rw [← h2]
    exact hc

/-- Whatever Cpu::handle_interrupts does, the resulting enable_pending is
false: it is cleared by the commit when set, and never set inside. -/
theorem Cpu.handle_interrupts_pending_cleared (cpu : Cpu) (mmu : Mmu)
    (out : Cpu × Mmu) (h : cpu.handle_interrupts mmu = .ok out) :
    out.1.ime.enable_pending = false := by
  by_cases hp : cpu.ime.enable_pending
  · rw [Cpu.handle_interrupts_commit cpu mmu hp] at h
    exact Cpu.handle_interrupts_pending_stays_clear _ mmu out rfl h
  · exact Cpu.handle_interrupts_pending_stays_clear cpu mmu out
      (Bool.not_eq_true _ ▸ eq_false_of_ne_true hp) h

/-- C2: EI only arms enable_pending and leaves IME's enabled flag as it
was during its own step; every run of the interrupt check clears
enable_pending (so it survives at most one instruction boundary), and
when no interrupt is pending the check commits the armed enable so IME
is observed enabled at the start of the following step; DI clears the
enabled flag immediately within its own step. -/
theorem C2_ei_enable_delay :
    (∀ (cpu : Cpu) (instr : Instruction), instr.opcode = .Ei →
      Handlers.handle_interrupt cpu instr
          = .ok (cpu.enable_interrupts true, instr.cycles.1)
        ∧ (cpu.enable_interrupts true).ime.enabled = cpu.ime.enabled
        ∧ (cpu.enable_interrupts true).ime.enable_pending = true)
  ∧ (∀ (cpu : Cpu) (mmu : Mmu) (out : Cpu × Mmu),
      cpu.handle_interrupts mmu = .ok out → out.1.ime.enable_pending = false)
  ∧ (∀ (cpu : Cpu) (mmu : Mmu),
      cpu.ime.enable_pending = true →
      (mmu.memory INTERRUPT_ENABLE_REGISTER &&& 0b11111)
          &&& (mmu.memory INTERRUPT_FLAGS_REGISTER &&& 0b11111) = 0 →
      cpu.handle_interrupts mmu
        = .ok ({ cpu with ime := { enabled := true, enable_pending := false } }, mmu))
  ∧ (∀ (cpu : Cpu) (instr : Instruction), instr.opcode = .Di →
      Handlers.handle_interrupt cpu instr
          = .ok (cpu.disable_interrupts, instr.cycles.1)
        ∧ cpu.disable_interrupts.ime.enabled = false
        ∧ cpu.disable_interrupts.ime.enable_pending = cpu.ime.enable_pending) := by
  refine ⟨?_, Cpu.handle_interrupts_pending_cleared, ?_, ?_⟩
  · intro cpu instr h
    refine ⟨?_, rfl, rfl⟩
    unfold Handlers.handle_interrupt
    rw [if_pos h]
  · intro cpu mmu hp h0
    rw [Cpu.handle_interrupts_commit cpu mmu hp]
    unfold Cpu.handle_interrupts
    rw [if_neg (by simp), Mmu.read_IE, Mmu.read_IF]
    simp only [bind, Except.bind, pure, Except.pure]
    rw [if_neg (fun hne => hne h0)]
  · intro cpu instr h
    refine ⟨?_, rfl, rfl⟩
    unfold Handlers.handle_interrupt
    rw [if_neg (by rw [h]; intro hc; cases hc)]

/-- Witness for C2 at concrete states: EI on a fresh CPU, the commit on
a CPU with enable_pending armed and an idle interrupt controller, and DI
on a fresh CPU. -/
theorem C2_witness :
    (Handlers.handle_interrupt Cpu.new eiInstr
        = .ok (Cpu.new.enable_interrupts true, eiInstr.cycles.1)
      ∧ (Cpu.new.enable_interrupts true).ime.enabled = Cpu.new.ime.enabled
      ∧ (Cpu.new.enable_interrupts true).ime.enable_pending = true)
  ∧ (c2cpu.handle_interrupts c2mmu
      = .ok ({ c2cpu with ime := { enabled := true, enable_pending := false } }, c2mmu))
  ∧ (Cpu.ime ({ c2cpu with ime := { enabled := true, enable_pending := false } } : Cpu)).enable_pending = false
  ∧ (Handlers.handle_interrupt Cpu.new diInstr
        = .ok (Cpu.new.disable_interrupts, diInstr.cycles.1)
      ∧ Cpu.new.disable_interrupts.ime.enabled = false
      ∧ Cpu.new.disable_interrupts.ime.enable_pending = Cpu.new.ime.enable_pending) :=
  ⟨C2_ei_enable_delay.1 Cpu.new eiInstr rfl,
   C2_ei_enable_delay.2.2.1 c2cpu c2mmu rfl (by decide),
   C2_ei_enable_delay.2.1 c2cpu c2mmu _
     (C2_ei_enable_delay.2.2.1 c2cpu c2mmu rfl (by decide)),
   C2_ei_enable_delay.2.2.2 Cpu.new diInstr rfl⟩

/-- With a pending bit below 32, Vector::from_flags always finds a
vector. -/
theorem Vector.from_flags_isSome :
    ∀ ie, ie < 32 → ∀ ifl, ifl < 32 → ie &&& ifl ≠ 0 →
      (Vector.from_flags ie ifl).isSome = true := by
  decide

/-- Vector::from_flags selects a set bit of IE AND IF, whose index
determines the vector address and the IF bit to clear. -/
theorem Vector.from_flags_lowest :
    ∀ (v : Vector), ∀ ie, ie < 32 → ∀ ifl, ifl < 32 →
      Vector.from_flags ie ifl = some v →
      v.index < 5
      ∧ (ie &&& ifl).testBit v.index = true
      ∧ v.to_address = 0x40 + 8 * v.index
      ∧ v.flag_bit = 2 ^ v.index := by
  intro v
  cases v <;> decide

/-- Vector::from_flags selects the lowest set bit: every lower bit of
IE AND IF is clear. -/
theorem Vector.from_flags_lower_clear :
    ∀ (v : Vector), ∀ ie, ie < 32 → ∀ ifl, ifl < 32 →
      Vector.from_flags ie ifl = some v →
      ∀ j, j < 5 → j < v.index → (ie &&& ifl).testBit j = false := by
  intro v
  cases v <;> decide

/-- Counterexample for C1: with IME disabled and IE AND IF non-zero
(IE = 1, IF = 0x15), Cpu::handle_interrupts services nothing — PC, SP
and IF are untouched and IME stays off — yet still adds 20 cycles,
because the cycle charge sits outside the IME test.  So 20 T-cycles are
not consumed only in the servicing case. -/
theorem C1_counterexample :
    c1cpuDisabled.ime.enabled = false
  ∧ c1cpuDisabled.handle_interrupts c1mmu
      = .ok ({ c1cpuDisabled with halted := false, cycles := c1cpuDisabled.cycles + 20 }, c1mmu)
  ∧ c1cpuDisabled.cycles + 20 ≠ c1cpuDisabled.cycles := by
  refine ⟨rfl, ?_, by decide⟩
  rfl

/-- A 16-bit write into the HRAM region stores both bytes in the backing
array, low byte first. -/
theorem Mmu.write16_hram (m : Mmu) (addr data : Nat)
    (h1 : 0xff80 ≤ addr) (h2 : addr ≤ 0xfffe) :
    m.write16 addr data
      = .ok { m with memory := upd (upd m.memory addr (data &&& 0xff)) (addr + 1) ((data >>> 8) % 256) } := by
  unfold Mmu.write16
  have e : wadd16 addr 1 = addr + 1 := by unfold wadd16; omega
  rw [Mmu.write_default m addr (data &&& 0xff) (by omega)
    (by unfold OAM_DMA_REGISTER; omega)
    (by unfold HDMA_LENGTH_MODE_START_REGISTER; omega)
    (by unfold HDMA_VRAM_SRC_HIGH_REGISTER; omega)
    (by unfold HDMA_VRAM_SRC_LOW_REGISTER; omega)
    (by unfold HDMA_VRAM_DST_HIGH_REGISTER; omega)
    (by unfold HDMA_VRAM_DST_LOW_REGISTER; omega)
    (by unfold DOUBLE_SPEED_SWITCH_REGISTER; omega)
    (by unfold isApuAddr; omega)
    (by unfold isCramAddr BACKGROUND_PALETTE_INDEX_REGISTER
          BACKGROUND_PALETTE_DATA_REGISTER OBJECT_PALETTE_INDEX_REGISTER
          OBJECT_PALETTE_DATA_REGISTER
        omega)]
  simp only [bind, Except.bind, pure, Except.pure]
  rw [e]
  exact Mmu.write_default _ (addr + 1) ((data >>> 8) % 256) (by omega)
    (by unfold OAM_DMA_REGISTER; omega)
    (by unfold HDMA_LENGTH_MODE_START_REGISTER; omega)
    (by unfold HDMA_VRAM_SRC_HIGH_REGISTER; omega)
    (by unfold HDMA_VRAM_SRC_LOW_REGISTER; omega)
    (by unfold HDMA_VRAM_DST_HIGH_REGISTER; omega)
    (by unfold HDMA_VRAM_DST_LOW_REGISTER; omega)
    (by unfold DOUBLE_SPEED_SWITCH_REGISTER; omega)
    (by unfold isApuAddr; omega)
    (by unfold isCramAddr BACKGROUND_PALETTE_INDEX_REGISTER
          BACKGROUND_PALETTE_DATA_REGISTER OBJECT_PALETTE_INDEX_REGISTER
          OBJECT_PALETTE_DATA_REGISTER
        omega)

set_option maxRecDepth 2048 in
/-- C1 (amended): on a CPU step whose interrupt check sees IE AND IF
non-zero (five-bit masked reads, no EI commit pending, SP-2 landing in
HRAM so the push hits the backing store): if IME is enabled, the CPU
picks the lowest-index set bit i of IE AND IF, pushes PC (SP drops by 2
and the bytes at the new SP hold the old PC little-endian), jumps to
0x40 + 8 i, clears exactly bit i of the five-bit IF value, clears IME,
unhalts, and adds 20 cycles; if IME is disabled, no servicing happens
but the CPU is still unhalted and the same 20 cycles are added — the
cycle charge is not limited to the servicing case. -/
theorem C1_interrupt_dispatch (cpu : Cpu) (mmu : Mmu)
    (hnp : cpu.ime.enable_pending = false)
    (hpend : (mmu.memory INTERRUPT_ENABLE_REGISTER &&& 0b11111)
        &&& (mmu.memory INTERRUPT_FLAGS_REGISTER &&& 0b11111) ≠ 0)
    (hsp1 : 0xff80 ≤ wsub16 cpu.registers.sp 2)
    (hsp2 : wsub16 cpu.registers.sp 2 ≤ 0xfffe) :
    (cpu.ime.enabled = true →
      ∃ i cpu' mmu',
        i < 5
        ∧ ((mmu.memory INTERRUPT_ENABLE_REGISTER &&& 0b11111)
            &&& (mmu.memory INTERRUPT_FLAGS_REGISTER &&& 0b11111)).testBit i = true
        ∧ (∀ j, j < i → ((mmu.memory INTERRUPT_ENABLE_REGISTER &&& 0b11111)
            &&& (mmu.memory INTERRUPT_FLAGS_REGISTER &&& 0b11111)).testBit j = false)
        ∧ cpu.handle_interrupts mmu = .ok (cpu', mmu')
        ∧ cpu'.registers.pc = 0x40 + 8 * i
        ∧ cpu'.registers.sp = wsub16 cpu.registers.sp 2
        ∧ mmu'.memory (wsub16 cpu.registers.sp 2) = cpu.registers.pc &&& 0xff
        ∧ mmu'.memory (wsub16 cpu.registers.sp 2 + 1) = (cpu.registers.pc >>> 8) % 256
        ∧ mmu'.memory INTERRUPT_FLAGS_REGISTER
            = (mmu.memory INTERRUPT_FLAGS_REGISTER &&& 0b11111) &&& not8 (2 ^ i)
        ∧ cpu'.ime.enabled = false
        ∧ cpu'.halted = false
        ∧ cpu'.cycles = cpu.cycles + 20)
  ∧ (cpu.ime.enabled = false →
      cpu.handle_interrupts mmu
        = .ok ({ cpu with halted := false, cycles := cpu.cycles + 20 }, mmu)) := by
  have hie32 : mmu.memory INTERRUPT_ENABLE_REGISTER &&& 0b11111 < 32 :=
    Nat.lt_succ_of_le Nat.and_le_right
  have hifl32 : mmu.memory INTERRUPT_FLAGS_REGISTER &&& 0b11111 < 32 :=
    Nat.lt_succ_of_le Nat.and_le_right
  constructor
  · intro hen
    obtain ⟨v, hv⟩ := Option.isSome_iff_exists.mp
      (Vector.from_flags_isSome _ hie32 _ hifl32 hpend)
    obtain ⟨hidx5, htb, haddr, hbit⟩ := Vector.from_flags_lowest v _ hie32 _ hifl32 hv
    have hlow := Vector.from_flags_lower_clear v _ hie32 _ hifl32 hv
    have hcomp : cpu.handle_interrupts mmu
        = .ok ({ cpu with
            registers := { cpu.registers with sp := wsub16 cpu.registers.sp 2, pc := v.to_address }
            ime := { cpu.ime with enabled := false }
            halted := false
            cycles := cpu.cycles + 20 },
          { mmu with memory := upd (upd (upd mmu.memory (wsub16 cpu.registers.sp 2) (cpu.registers.pc &&& 0xff)) (wsub16 cpu.registers.sp 2 + 1) ((cpu.registers.pc >>> 8) % 256)) INTERRUPT_FLAGS_REGISTER ((mmu.memory INTERRUPT_FLAGS_REGISTER &&& 0b11111) &&& not8 v.flag_bit) }) := by
      unfold Cpu.handle_interrupts
      rw [if_neg (by simp [hnp]), Mmu.read_IE, Mmu.read_IF]
      simp only [bind, Except.bind, pure, Except.pure]
      rw [if_pos hpend, if_pos hen]
      unfold Cpu.service_interrupt
      rw [hv]
      unfold Cpu.push_stack
      simp only [bind, Except.bind, pure, Except.pure]
      rw [Mmu.write16_hram _ (wsub16 cpu.registers.sp 2) cpu.registers.pc hsp1 hsp2]
      simp only [bind, Except.bind, pure, Except.pure]
      rw [Mmu.write_default _ INTERRUPT_FLAGS_REGISTER
        ((mmu.memory INTERRUPT_FLAGS_REGISTER &&& 0b11111) &&& not8 v.flag_bit)
        (by decide) (by decide) (by decide) (by decide) (by decide) (by decide)
        (by decide) (by decide) (by decide) (by decide)]
    refine ⟨v.index, _, _, hidx5, htb,
      (fun j hj => hlow j (lt_trans hj hidx5) hj), hcomp, haddr, rfl, ?_, ?_, ?_, rfl, rfl, rfl⟩
    · simp only [upd]
      simp
      intro hc
      unfold INTERRUPT_FLAGS_REGISTER at hc
      omega
    · simp only [upd]
      simp [Nat.succ_ne_self]
      intro hc
      unfold INTERRUPT_FLAGS_REGISTER at hc
      omega
    · simp only [upd]
      simp only [if_true, ite_true, if_pos]
      rw [hbit]
  · intro hdis
    unfold Cpu.handle_interrupts
    rw [if_neg (by simp [hnp]), Mmu.read_IE, Mmu.read_IF]
    simp only [bind, Except.bind, pure, Except.pure]
    rw [if_pos hpend, if_neg (by simp [hdis])]

/-- Witness for the amended C1 theorem at the concrete VBlank-enabled
state: all hypotheses hold there and the dispatch property follows. -/
theorem C1_witness :
    (c1cpu.ime.enable_pending = false
      ∧ (c1mmu.memory INTERRUPT_ENABLE_REGISTER &&& 0b11111)
          &&& (c1mmu.memory INTERRUPT_FLAGS_REGISTER &&& 0b11111) ≠ 0
      ∧ 0xff80 ≤ wsub16 c1cpu.registers.sp 2
      ∧ wsub16 c1cpu.registers.sp 2 ≤ 0xfffe)
  ∧ ((c1cpu.ime.enabled = true →
      ∃ i cpu' mmu',
        i < 5
        ∧ ((c1mmu.memory INTERRUPT_ENABLE_REGISTER &&& 0b11111)
            &&& (c1mmu.memory INTERRUPT_FLAGS_REGISTER &&& 0b11111)).testBit i = true
        ∧ (∀ j, j < i → ((c1mmu.memory INTERRUPT_ENABLE_REGISTER &&& 0b11111)
            &&& (c1mmu.memory INTERRUPT_FLAGS_REGISTER &&& 0b11111)).testBit j = false)
        ∧ c1cpu.handle_interrupts c1mmu = .ok (cpu', mmu')
        ∧ cpu'.registers.pc = 0x40 + 8 * i
        ∧ cpu'.registers.sp = wsub16 c1cpu.registers.sp 2
        ∧ mmu'.memory (wsub16 c1cpu.registers.sp 2) = c1cpu.registers.pc &&& 0xff
        ∧ mmu'.memory (wsub16 c1cpu.registers.sp 2 + 1) = (c1cpu.registers.pc >>> 8) % 256
        ∧ mmu'.memory INTERRUPT_FLAGS_REGISTER
            = (c1mmu.memory INTERRUPT_FLAGS_REGISTER &&& 0b11111) &&& not8 (2 ^ i)
        ∧ cpu'.ime.enabled = false
        ∧ cpu'.halted = false
        ∧ cpu'.cycles = c1cpu.cycles + 20)
  ∧ (c1cpu.ime.enabled = false →
      c1cpu.handle_interrupts c1mmu
        = .ok ({ c1cpu with halted := false, cycles := c1cpu.cycles + 20 }, c1mmu))) :=
  ⟨⟨by decide, by decide, by decide, by decide⟩,
    C1_interrupt_dispatch c1cpu c1mmu (by decide) (by decide) (by decide) (by decide)⟩

end Ayy
